import Mathlib

/-!
Verification of the `Plotter` render-abstraction layer of
`Mouse2AFC_Dash` (`src/report/analysis.py`).

The embedding models the `Plotter` class faithfully:
Python dictionaries become insertion-ordered association lists,
raised exceptions become `Except PyErr`, `warnings.warn` calls are
collected in a list, and the two backends (matplotlib, plotly) are
selected by the process-wide flag `Plotter._IS_MPL`, modelled as a
`Gl.isMPL` parameter.  External library calls (matplotlib artist
bookkeeping, plotly figure objects) are modelled by recording exactly
the data the source hands to them.
-/

namespace Mouse2AFC

/-- A Python float as used for plot data.  The analysis code only ever
produces exact decimal values here; we model them as rationals, with a
separate `nan` (used by `addLegendItem`, which plots at
`x=[float('nan')]`). -/
inductive PyFloat where
  | num (q : Rat)
  | nan
deriving DecidableEq

/-- Data arrays (numpy arrays / lists of numbers in the source). -/
abbrev PyData := List PyFloat

/-- Values stored in keyword-argument dictionaries.  `tup` is an
RGB(A) float tuple; `rgba` is the string `rgba(r, g, b, a)` built by
`_convertColor`; `fillcolorOf c a` is the string built by
`fillBetween` from `mpl.colors.to_rgba(c)` and `a` (the conversion by
the external matplotlib function is kept opaque); `data` is a numeric
array passed as a keyword argument (`y2=` in `fillBetween`). -/
inductive KWVal where
  | s (v : String)
  | num (q : Rat)
  | b (v : Bool)
  | pynone
  | tup (vs : List Rat)
  | rgba (r g bl : Int) (a : Rat)
  | fillcolorOf (color : String) (alpha : Rat)
  | data (d : PyData)
deriving DecidableEq

/-- A Python keyword-argument dictionary: insertion ordered, unique
keys (guaranteed by Python for `**kwargs`). -/
abbrev KW := List (String × KWVal)

def dictHas (kw : KW) (k : String) : Bool := kw.any (fun p => p.1 == k)

def dictGet (kw : KW) (k : String) : Option KWVal :=
  (kw.find? (fun p => p.1 == k)).map (fun p => p.2)

/-- Python dict assignment: overwrite in place if the key exists,
otherwise append (insertion order preserved). -/
def dictSet (kw : KW) (k : String) (v : KWVal) : KW :=
  if dictHas kw k then kw.map (fun p => if p.1 == k then (k, v) else p)
  else kw ++ [(k, v)]

/-- Python `dict.update`: apply `dictSet` for each entry of `upd` in order. -/
def dictMerge (kw upd : KW) : KW := upd.foldl (fun acc p => dictSet acc p.1 p.2) kw

/-- Python `dict.pop(k)` (discarding the value). -/
def dictPop (kw : KW) (k : String) : KW := kw.filter (fun p => p.1 ≠ k)

/-- Python `str.capitalize()`: first character upper-cased, rest lower-cased.
Used by `_convertKWArgs` to build the handler name `_convert<Key>`. -/
def pyCapitalize (s : String) : String :=
  match s.data with
  | [] => ""
  | c :: cs => String.mk (c.toUpper :: cs.map Char.toLower)

/-- Round half to even (the rounding used by Python `round` and
`numpy.round`), on exact rationals. -/
def roundHalfEven (q : Rat) : Int :=
  let f := ⌊q⌋
  let r := q - f
  if r < 1/2 then f
  else if 1/2 < r then f + 1
  else if 2 ∣ f then f else f + 1

/-- Python `round(q, 1)` on exact rationals. -/
def pyRound1 (q : Rat) : Rat := (roundHalfEven (q * 10) : Rat) / 10

def PyFloat.sub : PyFloat → PyFloat → PyFloat
  | .num a, .num b => .num (a - b)
  | _, _ => .nan

def PyFloat.add : PyFloat → PyFloat → PyFloat
  | .num a, .num b => .num (a + b)
  | _, _ => .nan

def PyFloat.half : PyFloat → PyFloat
  | .num a => .num (a / 2)
  | .nan => .nan

def PyFloat.round1 : PyFloat → PyFloat
  | .num a => .num (pyRound1 a)
  | .nan => .nan

/-- Python `str(v)` as applied to legend labels / trace names.  The
analysis code only uses string labels; the other branches give a
definite (stringly) rendering so the model stays total. -/
def kwvalStr : KWVal → String
  | .s v => v
  | .num q => toString q
  | .b true => "True"
  | .b false => "False"
  | .pynone => "None"
  | .tup _ => "tuple"
  | .rgba r g bl a => "rgba(" ++ toString r ++ ", " ++ toString g ++ ", " ++
      toString bl ++ ", " ++ toString a ++ ")"
  | .fillcolorOf c a => "rgba-of(" ++ c ++ ", " ++ toString a ++ ")"
  | .data _ => "array"

/-- Python exceptions raised by the modelled code. -/
inductive PyErr where
  | keyError (k : String)
  | valueError (msg : String)
  | runtimeError (msg : String)
  | typeError (msg : String)
  | indexError (msg : String)
  | nameError
deriving DecidableEq

/-- Calls to `warnings.warn` inside the keyword translation, keyed by
the information the source interpolates into the message. -/
inductive Warn where
  | convNotImplemented (key : String)
  | stepWhereNotAvailable (w : String)
deriving DecidableEq

/-- `TraceType` enum of the source. -/
inductive TraceType where
  | Bar
  | Scatter
  | Line
  | Step
  | HVline
deriving DecidableEq

/-- Matplotlib axes methods that appear either as deferred `_draw_fn`s
or as immediately-drawn artists. -/
inductive MplKind where
  | scat
  | plot
  | bar
  | step
  | fillBetween
  | axvline
  | axhline
deriving DecidableEq

/-- The `_draw_fn` stored in a `DeferredTrace`: a plotly trace
constructor (`go.Scatter` / `go.Bar`), or a matplotlib axes method
bound to a specific axes object (`y2 = true` means the secondary-axis
axes created by `twinx()`). -/
inductive DrawFn where
  | goScatter
  | goBar
  | mpl (k : MplKind) (y2 : Bool)
deriving DecidableEq

/-- `Plotter.DeferredTrace`: one pending trace record. -/
structure DeferredTrace where
  drawFn : DrawFn
  drawCount : Nat
  x : PyData
  y1 : PyData
  zorder : Int
  kwargs : KW
deriving DecidableEq

/-- A trace added to the plotly figure by `add_trace` at flush time. -/
structure GoTrace where
  fn : DrawFn
  x : PyData
  y : PyData
  kwargs : KW
deriving DecidableEq

/-- A plotly shape created by `add_shape` (reference lines). -/
structure Shape where
  shapeType : String
  layer : String
  xref : String
  yref : String
  x0 : PyFloat
  x1 : PyFloat
  y0 : PyFloat
  y1 : PyFloat
  kwargs : KW
deriving DecidableEq

/-- The successive `update_layout` / `update_xaxes` calls made on the
plotly figure, recorded in call order. -/
inductive LayoutUpd where
  | baseStyle
  | y2Style
  | legendPlacement
  | title (t : String)
  | xaxisRangemode (m : String)
  | xaxisRange (lo hi : Rat)
  | yaxisRangemode (axis m : String)
  | yaxisRange (axis : String) (lo hi : Rat)
  | xaxisTitle (t : String)
  | yaxisTitle (axis t : String)
  | xTickVals (vs : PyData)
  | xTickText (ts : List String)
  | yTickSuffix (axis suf : String)
  | yTickColor (axis : String) (c : KWVal)
deriving DecidableEq

/-- The plotly `go.Figure` (shared between the primary context and its
secondary-axis child). -/
structure GraphObj where
  traces : List GoTrace
  shapes : List Shape
  layout : List LayoutUpd
deriving DecidableEq

/-- A matplotlib artist drawn on an axes (either flushed from a
deferred trace or drawn immediately by `axvline` / `axhline`). -/
structure Artist where
  kind : DrawFn
  x : PyData
  y : PyData
  zorder : Int
  kwargs : KW
deriving DecidableEq

/-- Configuration calls made on a matplotlib axes. -/
inductive MplCfg where
  | xlim (lo hi : Option Rat)
  | ylim (lo hi : Option Rat)
  | title (t : String)
  | xlabel (t : String)
  | ylabel (t : String)
  | xticks (vs : PyData)
  | xticklabels (ts : List String)
  | yTickFormatter (suffix : String)
  | tickParams (c : KWVal)
  | legendCall (kw : KW)
deriving DecidableEq

/-- A matplotlib axes object. -/
structure Axes where
  artists : List Artist
  cfg : List MplCfg
deriving DecidableEq

/-- A legend handle: a drawn artist (from `get_legend_handles_labels`)
or a synthetic `Line2D` built for vlines / manual legend items,
modelled by its keyword arguments. -/
inductive Handle where
  | artist (a : Artist)
  | line2D (kw : KW)
deriving DecidableEq

/-- The label of an artist, as `get_legend_handles_labels` sees it:
present when a `label` keyword was supplied. -/
def artistLabel (a : Artist) : Option String :=
  (dictGet a.kwargs "label").map kwvalStr

/-- Matplotlib `get_legend_handles_labels`, modelled per its contract:
artists with a label not starting with an underscore, in the order
they were added to the axes. -/
def getLegendHandlesLabels (ax : Axes) : List Artist × List String :=
  let labeled := ax.artists.filter (fun a =>
    match artistLabel a with
    | some l => ¬ l.startsWith "_"
    | none => false)
  (labeled, labeled.filterMap artistLabel)

/-- One `Plotter` instance (a Plot Context): either the primary-axis
instance or the secondary-axis instance created by `addYAxis`.  The
matplotlib-only fields (`axes`, `extraHandles`, `extraLabels`,
`handlesList`, `labelsList`) and the plotly-only field (`tracenames`)
are both present in the model; each backend only ever touches its
own. -/
structure Ctx where
  yaxisId : String
  deferredTraces : List DeferredTrace
  drawCount : Nat
  alreadyDrawn : Bool
  axes : Axes
  extraHandles : List KW
  extraLabels : List String
  handlesList : List Handle
  labelsList : List String
  tracenames : List String
deriving DecidableEq

def Y1_AXIS_ID : String := "y1"
def Y2_AXIS_ID : String := "y2"

def Ctx.isY2 (c : Ctx) : Bool := c.yaxisId == Y2_AXIS_ID

/-- The whole plot: the primary `Plotter` instance, its optional
secondary-axis child (`_child_plotter`), the shared plotly figure, and
the warnings emitted so far. -/
structure Plot where
  primary : Ctx
  child : Option Ctx
  graph : GraphObj
  warns : List Warn
deriving DecidableEq

/-- Process-wide globals: `Plotter._IS_MPL` and the module global
`SCALE_X` (which is `None` until `setMatplotlibParams` runs). -/
structure Gl where
  isMPL : Bool
  scaleX : Option Rat
deriving DecidableEq

def freshCtx : Ctx :=
  { yaxisId := Y1_AXIS_ID
    deferredTraces := []
    drawCount := 0
    alreadyDrawn := false
    axes := ⟨[], []⟩
    extraHandles := []
    extraLabels := []
    handlesList := []
    labelsList := []
    tracenames := [] }

/-- `Plotter()` constructed with a fresh axes / figure.  In plotly mode
`__init__` applies the base `PLOTLY_LAYOUT` style. -/
def freshPlot (g : Gl) : Plot :=
  { primary := freshCtx
    child := none
    graph := { traces := [], shapes := [],
               layout := if g.isMPL then [] else [.baseStyle] }
    warns := [] }

/-! ## Keyword-argument translation (`Plotter._convert*`) -/

/-- `_convertColor` / `_convertC`: an RGB(A) float tuple is converted
to an `rgba(r, g, b, a)` string with 0-255 integer components
(`np.round`, half-to-even); other values pass through.  The plotly key
depends on the trace type.  A tuple with fewer than three components
makes the source index past the end of `color[:3]` (IndexError). -/
def colorKeyOf (tt : TraceType) : String :=
  match tt with
  | .Line | .Step | .HVline => "line_color"
  | .Bar | .Scatter => "marker_color"

def convertColor (color : KWVal) (tt : TraceType) : Except PyErr (Option KW) :=
  match color with
  | .tup vs =>
    match vs with
    | r :: g :: bl :: rest =>
      let alpha : Rat := if rest.length = 1 then rest.headI else 1
      .ok (some [(colorKeyOf tt,
        KWVal.rgba (roundHalfEven (r * 255)) (roundHalfEven (g * 255))
          (roundHalfEven (bl * 255)) alpha)])
    | _ => .error (.indexError "index out of bounds")
  | other => .ok (some [(colorKeyOf tt, other)])

/-- `_convertLinestyle`: the fixed token table.  A style outside the
table (and not one of the none-ish tokens) hits `vals[style]` in the
source, which raises `KeyError`. -/
def convertLinestyle (style : KWVal) : Except PyErr (Option KW) :=
  match style with
  | .s sty =>
    if sty = "None" ∨ sty = "" ∨ sty = " " then .ok none
    else
      let tbl : List (String × String) :=
        [("-", "solid"), ("--", "dash"), ("-.", "dashdot"), (":", "dot"),
         ("solid", "solid"), ("dashed", "dash"), ("dashdot", "dashdot"),
         ("dotted", "dot")]
      match (tbl.find? (fun p => p.1 == sty)).map (fun p => p.2) with
      | some v => .ok (some [("line_dash", .s v)])
      | none => .error (.keyError sty)
  | other => .error (.keyError (kwvalStr other))

/-- `_convertMarker`: `None` is dropped; `o` and `+` map to named
shapes; anything else falls back to `circle` (`vals.get(style,
default)` never raises on hashable values). -/
def convertMarker (style : KWVal) : Except PyErr (Option KW) :=
  match style with
  | .pynone => .ok none
  | .s sty =>
    .ok (some [("marker_symbol",
      .s (if sty = "o" then "circle" else if sty = "+" then "cross-thin"
          else "circle"))])
  | _ => .ok (some [("marker_symbol", .s "circle")])

/-- `_convertWhere`: warns for `pre` / `post`, always drops. -/
def convertWhere (w : KWVal) : Option KW × List Warn :=
  if w = .s "pre" ∨ w = .s "post" then
    (none, [.stepWhereNotAvailable (kwvalStr w)])
  else (none, [])

/-- Dispatch of one keyword argument through the `_convert<Key>`
handlers; an unrecognized name is an `AttributeError` caught by the
source, which warns and drops the option. -/
def applyConvert (key : String) (val : KWVal) (tt : TraceType) :
    Except PyErr (Option KW × List Warn) :=
  match pyCapitalize key with
  | "Align" => .ok (none, [])
  | "Alpha" => .ok (some [("opacity", val)], [])
  | "Bbox_to_anchor" => .ok (none, [])
  | "C" =>
    (match convertColor val tt with
     | .error e => .error e
     | .ok r => .ok (r, []))
  | "Color" =>
    (match convertColor val tt with
     | .error e => .error e
     | .ok r => .ok (r, []))
  | "Edgecolor" => .ok (some [("marker_line_color", val)], [])
  | "Edgecolors" =>
    .ok (some [("marker_line_color", val), ("marker_line_width", .num 2)], [])
  | "Fancybox" => .ok (none, [])
  | "Handles" => .ok (none, [])
  | "Label" =>
    .ok (if val = .pynone then none else some [("name", val)], [])
  | "Labels" => .ok (none, [])
  | "Linewidth" => .ok (some [("line_width", val)], [])
  | "Linestyle" =>
    (match convertLinestyle val with
     | .error e => .error e
     | .ok r => .ok (r, []))
  | "Loc" => .ok (none, [])
  | "Marker" =>
    (match convertMarker val with
     | .error e => .error e
     | .ok r => .ok (r, []))
  | "Markerfacecolor" => .ok (some [("marker_color", val)], [])
  | "Markeredgecolor" =>
    .ok (some [("marker_line_color", val), ("marker_line_width", .num 2)], [])
  | "Markersize" => .ok (some [("marker_size", val)], [])
  | "Ncol" => .ok (none, [])
  | "Prop" => .ok (none, [])
  | "S" => .ok (some [("marker_size", val)], [])
  | "Where" => .ok (convertWhere val)
  | "Width" => .ok (some [("width", val)], [])
  | _ => .ok (none, [.convNotImplemented key])

/-- The none-ish values excluded by the `mode` bookkeeping in
`_convertKWArgs` (`val not in [None, 'None', ' ', '']`). -/
def isNoneish (v : KWVal) : Bool :=
  v == .pynone || v == .s "None" || v == .s " " || v == .s ""

/-- The main loop of `_convertKWArgs`: translate each keyword in
order, merging results into the accumulated plotly dictionary and
accumulating the `modes` flags. -/
def convertLoop (tt : TraceType) :
    KW → KW → List String → List Warn →
    Except PyErr (KW × List String × List Warn)
  | [], allKW, modes, ws => .ok (allKW, modes, ws)
  | (key, val) :: rest, allKW, modes, ws =>
    match applyConvert key val tt with
    | .error e => .error e
    | .ok (res, w2) =>
      let allKW := match res with
        | some d => dictMerge allKW d
        | none => allKW
      let modes :=
        if key = "marker" ∧ ¬ isNoneish val then modes ++ ["markers"]
        else if (key = "linestyle" ∨ key = "linewidth") ∧ ¬ isNoneish val then
          modes ++ ["lines"]
        else modes
      convertLoop tt rest allKW modes (ws ++ w2)

/-- The tail of `_convertKWArgs` after the per-keyword loop: `mode`
assembly, `yaxis` and legend bookkeeping (never raises).  `lg` is the
bound value of the `legendgroup` parameter (already known to be
non-`None` when `some`). -/
def convertKWTail (c : Ctx) (tt : TraceType) (lg : Option KWVal)
    (allKW0 : KW) (modes : List String) (ws : List Warn) :
    KW × Ctx × List Warn :=
  let allKW :=
    if tt = TraceType.Line ∧ modes ≠ [] then
      dictSet allKW0 "mode" (.s (String.intercalate "+" modes))
    else allKW0
  if tt = TraceType.HVline then (allKW, c, ws)
  else
    let allKW := dictSet allKW "yaxis" (.s c.yaxisId)
    match dictGet allKW "name" with
    | none => (dictSet allKW "showlegend" (.b false), c, ws)
    | some nm =>
      let c := { c with tracenames := c.tracenames ++ [kwvalStr nm] }
      let grp : KWVal := match lg with
        | some v => v
        | none =>
          .s (if c.yaxisId = Y2_AXIS_ID then Y2_AXIS_ID else Y1_AXIS_ID)
      (dictSet allKW "legendgroup" grp, c, ws)

/-- Binding of the `legendgroup=None` named parameter of
`_convertKWArgs` from the caller's keyword bag: Python treats an
explicitly passed `None` like the default (the function only tests
`legendgroup is not None`). -/
def lgBind (o : Option KWVal) : Option KWVal :=
  match o with
  | some KWVal.pynone => none
  | o => o

/-- `Plotter._convertKWArgs`, including Python's binding of the
`legendgroup=None` named parameter.  At the one internal call site
that passes `legendgroup` explicitly (`addLegendItem`, modeled as
`lg = some g`), a `legendgroup` key in the caller's bag is a duplicate
keyword and raises `TypeError`; at every other call site (`lg = none`)
such a key silently binds the parameter and is honored as the override
legend group.  A `tracetype` key in the bag always collides with the
positionally passed `tracetype` argument and raises `TypeError`.
Besides the translated dictionary the function returns the updated
context (the source appends to `self._tracenames` when a trace name is
present and the trace type is not `HVline`) and the warnings
emitted. -/
def convertKWArgs (c : Ctx) (tt : TraceType) (lg : Option KWVal) (kw : KW) :
    Except PyErr (KW × Ctx × List Warn) :=
  match lg with
  | some g =>
    if dictHas kw "legendgroup" then
      .error (.typeError "got multiple values for keyword argument legendgroup")
    else if dictHas kw "tracetype" then
      .error (.typeError "got multiple values for argument tracetype")
    else
      match convertLoop tt kw [] [] [] with
      | .error e => .error e
      | .ok (allKW, modes, ws) =>
        .ok (convertKWTail c tt (lgBind (some g)) allKW modes ws)
  | none =>
    if dictHas kw "tracetype" then
      .error (.typeError "got multiple values for argument tracetype")
    else
      match convertLoop tt (dictPop kw "legendgroup") [] [] [] with
      | .error e => .error e
      | .ok (allKW, modes, ws) =>
        .ok (convertKWTail c tt (lgBind (dictGet kw "legendgroup"))
          allKW modes ws)

/-! ## Trace-adding operations -/

/-- Append one `DeferredTrace` built from the current draw counter and
bump the counter — the common tail of every trace-adding method
(`DeferredTrace(fn, self._draw_count, ...)` followed by
`self._draw_count += 1`). -/
def pushTrace (c : Ctx) (fn : DrawFn) (x y1 : PyData) (z : Int) (kw : KW) : Ctx :=
  { c with
    deferredTraces := c.deferredTraces ++ [⟨fn, c.drawCount, x, y1, z, kw⟩]
    drawCount := c.drawCount + 1 }

/-- `Plotter.addScatter`. -/
def addScatterC (g : Gl) (c : Ctx) (x y : PyData) (z : Int) (kw : KW) :
    Except PyErr (Ctx × List Warn) :=
  if g.isMPL then
    .ok (pushTrace c (.mpl .scat c.isY2) x y z kw, [])
  else
    match convertKWArgs c .Scatter none kw with
    | .error e => .error e
    | .ok (pkw, c, ws) =>
      .ok (pushTrace c .goScatter x y z
        (dictMerge [("mode", .s "markers")] pkw), ws)

/-- `Plotter.addLine`. -/
def addLineC (g : Gl) (c : Ctx) (x y : PyData) (z : Int) (kw : KW) :
    Except PyErr (Ctx × List Warn) :=
  if g.isMPL then
    .ok (pushTrace c (.mpl .plot c.isY2) x y z kw, [])
  else
    match convertKWArgs c .Line none kw with
    | .error e => .error e
    | .ok (pkw, c, ws) => .ok (pushTrace c .goScatter x y z pkw, ws)

/-- `Plotter.addBar`.  In plotly mode, `align='edge'` shifts all x
values by half a bin (`round((x[-1] - x[-2]) * 0.5, 1)`), which
requires at least two x values (IndexError otherwise). -/
def addBarC (g : Gl) (c : Ctx) (x y : PyData) (z : Int) (kw : KW) :
    Except PyErr (Ctx × List Warn) :=
  if g.isMPL then
    .ok (pushTrace c (.mpl .bar c.isY2) x y z kw, [])
  else
    match convertKWArgs c .Bar none kw with
    | .error e => .error e
    | .ok (pkw, c, ws) =>
      if dictGet kw "align" = some (.s "edge") then
        match x.reverse with
        | a :: b :: _ =>
          let halfBin := ((a.sub b).half).round1
          .ok (pushTrace c .goBar (x.map (fun v => v.add halfBin)) y z pkw, ws)
        | _ => .error (.indexError "index out of bounds")
      else .ok (pushTrace c .goBar x y z pkw, ws)

/-- `Plotter.addStep`. -/
def addStepC (g : Gl) (c : Ctx) (x y : PyData) (z : Int) (kw : KW) :
    Except PyErr (Ctx × List Warn) :=
  if g.isMPL then
    .ok (pushTrace c (.mpl .step c.isY2) x y z kw, [])
  else
    match convertKWArgs c .Step none kw with
    | .error e => .error e
    | .ok (pkw, c, ws) =>
      .ok (pushTrace c .goScatter x y z
        (dictMerge [("mode", .s "lines"), ("line_shape", .s "hv")] pkw), ws)

/-- `Plotter.fillBetween`.  Matplotlib: one deferred `fill_between`
record.  Plotly: a fully transparent boundary line followed by a
`tonexty` fill region, two consecutive records. -/
def fillBetweenC (g : Gl) (c : Ctx) (x y1 y2 : PyData) (color : String)
    (alpha : Rat) (z : Int) : Ctx :=
  if g.isMPL then
    pushTrace c (.mpl .fillBetween c.isY2) x y1 z
      [("y2", .data y2), ("color", .s color), ("alpha", .num alpha)]
  else
    let c := pushTrace c .goScatter x y1 z
      [("line_color", .s "rgba(0,0,0,0)"), ("showlegend", .b false),
       ("yaxis", .s c.yaxisId)]
    pushTrace c .goScatter x y2 z
      [("mode", .s "none"), ("fill", .s "tonexty"),
       ("fillcolor", .fillcolorOf color alpha), ("showlegend", .b false),
       ("yaxis", .s c.yaxisId)]

/-- The matplotlib legend proxy `Line2D` for a labeled vline: a
vertical marker for solid lines (`mpl_kwargs['color']` raises if no
color was given; `10*SCALE_X` raises if `SCALE_X` is still `None`),
the styled line itself otherwise. -/
def vlineProxyMpl (g : Gl) (labelVal : KWVal) (kwp : KW) : Except PyErr KW :=
  if dictGet kwp "linestyle" = some (.s "-") ∨
     dictGet kwp "linestyle" = some (.s "solid") then
    match dictGet kwp "color" with
    | none => .error (.keyError "color")
    | some colorVal =>
      match g.scaleX with
      | none => .error (.typeError "unsupported operand type")
      | some sx =>
        .ok [("marker", KWVal.s "|"), ("linestyle", KWVal.s "None"),
             ("color", colorVal), ("markersize", KWVal.num (10 * sx)),
             ("label", KWVal.s (kwvalStr labelVal))]
  else .ok (dictMerge [("label", labelVal)] kwp)

/-- The plotly marker-glyph dummy trace for a labeled solid reference
line (`plotly_kwargs['line_color']` raises if no color was given). -/
def solidProxyPlotly (c : Ctx) (pkw : KW) (nm : KWVal) : Except PyErr Ctx :=
  match dictGet pkw "line_color" with
  | none => .error (.keyError "line_color")
  | some lc =>
    .ok (pushTrace c .goScatter [.num (-5)] [.num (-5)] 10000
      [("mode", .s "markers"), ("marker_symbol", .s "line_ns_open"),
       ("marker_color", lc), ("name", nm), ("legendgroup", .s "extra")])

/-- `Plotter.createVLine`. -/
def createVLineC (g : Gl) (c : Ctx) (gr : GraphObj) (x : PyFloat) (z : Int)
    (kw : KW) : Except PyErr (Ctx × GraphObj × List Warn) :=
  if g.isMPL then
    match dictGet kw "label" with
    | some labelVal =>
      (match vlineProxyMpl g labelVal (dictPop kw "label") with
       | .error e => .error e
       | .ok line =>
         let c := { c with extraHandles := c.extraHandles ++ [line],
                           extraLabels := c.extraLabels ++ [kwvalStr labelVal] }
         let art : Artist :=
           { kind := .mpl .axvline c.isY2, x := [x], y := [], zorder := z,
             kwargs := dictPop kw "label" }
         .ok ({ c with
                axes := { c.axes with artists := c.axes.artists ++ [art] } },
              gr, []))
    | none =>
      let art : Artist :=
        { kind := .mpl .axvline c.isY2, x := [x], y := [], zorder := z,
          kwargs := kw }
      .ok ({ c with
             axes := { c.axes with artists := c.axes.artists ++ [art] } },
           gr, [])
  else
    match convertKWArgs c .HVline none kw with
    | .error e => .error e
    | .ok (pkw, c, ws) =>
      let fin := fun (c2 : Ctx) =>
        let layer := if z > 1 then "above" else "below"
        let sh : Shape :=
          { shapeType := "line", layer := layer, yref := "paper",
            y0 := .num 0, y1 := .num 1, xref := "x", x0 := x, x1 := x,
            kwargs := pkw }
        (c2, { gr with shapes := gr.shapes ++ [sh] }, ws)
      match dictGet pkw "name" with
      | none => .ok (fin c)
      | some nm =>
        let c := { c with tracenames := c.tracenames ++ [kwvalStr nm] }
        match dictGet pkw "line_dash" with
        | some d =>
          if d ≠ .s "solid" ∧ d ≠ .s "-" then
            .ok (fin (pushTrace c .goScatter [.num (-5)] [.num (-5)] 10000
              (dictMerge [("mode", .s "lines"), ("legendgroup", .s "extra")]
                pkw)))
          else
            match solidProxyPlotly c pkw nm with
            | .error e => .error e
            | .ok c2 => .ok (fin c2)
        | none =>
          match solidProxyPlotly c pkw nm with
          | .error e => .error e
          | .ok c2 => .ok (fin c2)

/-- `Plotter.createHLine`. -/
def createHLineC (g : Gl) (c : Ctx) (gr : GraphObj) (y : PyFloat) (z : Int)
    (kw : KW) : Except PyErr (Ctx × GraphObj × List Warn) :=
  if g.isMPL then
    let (c, kwRest) :=
      match dictGet kw "label" with
      | some labelVal =>
        let label := kwvalStr labelVal
        let kwp := dictPop kw "label"
        ({ c with
           extraHandles := c.extraHandles ++ [dictMerge [("label", labelVal)] kwp]
           extraLabels := c.extraLabels ++ [label] }, kwp)
      | none => (c, kw)
    let art : Artist :=
      { kind := .mpl .axhline c.isY2, x := [], y := [y], zorder := z,
        kwargs := kwRest }
    .ok ({ c with axes := { c.axes with artists := c.axes.artists ++ [art] } },
         gr, [])
  else
    match convertKWArgs c .HVline none kw with
    | .error e => .error e
    | .ok (pkw, c, ws) =>
      let c :=
        match dictGet pkw "name" with
        | some nm =>
          let c := { c with tracenames := c.tracenames ++ [kwvalStr nm] }
          pushTrace c .goScatter [.num (-5)] [.num (-5)] 10000
            (dictMerge [("mode", .s "lines"), ("legendgroup", .s "extra")] pkw)
        | none => c
      let layer := if z > 1 then "above" else "below"
      let sh : Shape :=
        { shapeType := "line", layer := layer, xref := "paper",
          x0 := .num 0, x1 := .num 1, yref := c.yaxisId, y0 := y, y1 := y,
          kwargs := pkw }
      .ok (c, { gr with shapes := gr.shapes ++ [sh] }, ws)

/-- `Plotter.addLegendItem`: only legal before `draw()`. -/
def addLegendItemC (g : Gl) (c : Ctx) (kw : KW) :
    Except PyErr (Ctx × List Warn) :=
  if c.alreadyDrawn then
    .error (.runtimeError
      "Plotter.addLegendItem() must be called before Plotter.draw().")
  else if g.isMPL then
    let label := ((dictGet kw "label").map kwvalStr).getD ""
    .ok ({ c with extraHandles := c.extraHandles ++ [kw],
                  extraLabels := c.extraLabels ++ [label] }, [])
  else
    match convertKWArgs c .Scatter (some (.s "extra")) kw with
    | .error e => .error e
    | .ok (pkw, c, ws) => .ok (pushTrace c .goScatter [.nan] [.num (-5)] 2 pkw, ws)

/-- `Plotter.legend`: only legal after `draw()`. -/
def legendC (g : Gl) (c : Ctx) (gr : GraphObj) (kw : KW) :
    Except PyErr (Ctx × GraphObj) :=
  if ¬ c.alreadyDrawn then
    .error (.runtimeError
      "Plotter.legend() can be called only after Plotter.draw() was called.")
  else if g.isMPL then
    .ok ({ c with axes := { c.axes with cfg := c.axes.cfg ++ [.legendCall kw] } },
         gr)
  else
    .ok (c, { gr with layout := gr.layout ++ [.legendPlacement] })

/-- Replace the first occurrence of `a` in the list by `b`
(`idx = list.index(a); list[idx] = b`). -/
def replaceFirst : List String → String → String → List String
  | [], _, _ => []
  | x :: xs, a, b => if x = a then b :: xs else x :: replaceFirst xs a b

/-- The message of the `ValueError` raised on a failed legend lookup
(quotes around the entry name omitted). -/
def legendErrMsg (item : String) : String :=
  "Legend entry " ++ item ++
  " does not exist. Check for typos and make sure you used the right plotter instance"

/-- The pre-draw loop of `updateLegendText`: scan the pending traces
for the first one whose label keyword equals `item`, and rewrite it.
`trace._kwargs[label]` raises `KeyError` as soon as a scanned trace
lacks the key; falling off the loop raises the `ValueError`. -/
def legendScan (key item newLabel : String) :
    List DeferredTrace → Except PyErr (List DeferredTrace)
  | [] => .error (.valueError (legendErrMsg item))
  | t :: ts =>
    match dictGet t.kwargs key with
    | none => .error (.keyError key)
    | some v =>
      if v = .s item then
        .ok ({ t with kwargs := dictSet t.kwargs key (.s newLabel) } :: ts)
      else
        match legendScan key item newLabel ts with
        | .error e => .error e
        | .ok ts2 => .ok (t :: ts2)

/-- `Plotter.updateLegendText`. -/
def updateLegendTextC (g : Gl) (c : Ctx) (gr : GraphObj) (item newText : String)
    (append : Bool) : Except PyErr (Ctx × GraphObj) :=
  let newLabel := (if append then item else "") ++ newText
  if c.alreadyDrawn then
    if g.isMPL then
      if item ∈ c.labelsList then
        .ok ({ c with labelsList := replaceFirst c.labelsList item newLabel }, gr)
      else .error (.valueError (legendErrMsg item))
    else
      if item ∈ c.tracenames then
        .ok ({ c with tracenames := replaceFirst c.tracenames item newLabel },
          { gr with traces := gr.traces.map (fun t =>
              if dictGet t.kwargs "name" = some (.s item) then
                { t with kwargs := dictSet t.kwargs "name" (.s newLabel) }
              else t) })
      else .error (.valueError (legendErrMsg item))
  else
    let key := if g.isMPL then "label" else "name"
    match legendScan key item newLabel c.deferredTraces with
    | .error e => .error e
    | .ok ts2 => .ok ({ c with deferredTraces := ts2 }, gr)

/-! ## `addYAxis`, `draw`, and the axis setters -/

/-- The sort order used by `Plotter.draw`:
`deferred_traces.sort(key=attrgetter('_zorder', '_draw_count'))`. -/
def lexLe (a b : DeferredTrace) : Prop :=
  a.zorder < b.zorder ∨ (a.zorder = b.zorder ∧ a.drawCount ≤ b.drawCount)

instance : DecidableRel lexLe := fun a b => by
  unfold lexLe; infer_instance

instance : IsTotal DeferredTrace lexLe :=
  ⟨fun a b => by
    rcases lt_trichotomy a.zorder b.zorder with h | h | h
    · exact Or.inl (Or.inl h)
    · rcases Nat.le_total a.drawCount b.drawCount with h2 | h2
      · exact Or.inl (Or.inr ⟨h, h2⟩)
      · exact Or.inr (Or.inr ⟨h.symm, h2⟩)
    · exact Or.inr (Or.inl h)⟩

instance : IsTrans DeferredTrace lexLe :=
  ⟨fun a b c hab hbc => by
    rcases hab with h1 | ⟨e1, d1⟩
    · rcases hbc with h2 | ⟨e2, _⟩
      · exact Or.inl (h1.trans h2)
      · exact Or.inl (e2 ▸ h1)
    · rcases hbc with h2 | ⟨e2, d2⟩
      · exact Or.inl (e1 ▸ h2)
      · exact Or.inr ⟨e1.trans e2, d1.trans d2⟩⟩

/-- Python's `list.sort` is a stable sort; `List.insertionSort` is the
stable sort we use to model it. -/
def sortTraces (l : List DeferredTrace) : List DeferredTrace :=
  List.insertionSort lexLe l

/-- Flush order assembled by `draw()` when called on the primary
instance: its own pending records, extended with the child's, stably
sorted by `(zorder, draw_count)`. -/
def drawFlushOrder (p : Plot) : List DeferredTrace :=
  sortTraces (p.primary.deferredTraces ++
    (match p.child with
     | some c => c.deferredTraces
     | none => []))

/-- Rendering of one flushed record by the plotly backend
(`self.graph_obj.add_trace(trace._draw_fn(x=..., y=..., **kwargs))`). -/
def toGoTrace (t : DeferredTrace) : GoTrace :=
  { fn := t.drawFn, x := t.x, y := t.y1, kwargs := t.kwargs }

/-- Rendering of one flushed record by the matplotlib backend
(`trace._draw_fn(x, y1, zorder=..., **kwargs)` on the axes the method
was bound to). -/
def toArtist (t : DeferredTrace) : Artist :=
  { kind := t.drawFn, x := t.x, y := t.y1, zorder := t.zorder,
    kwargs := t.kwargs }

/-- Whether a deferred record's draw function is bound to the
secondary (`twinx`) axes. -/
def boundToY2 (t : DeferredTrace) : Bool :=
  match t.drawFn with
  | .mpl _ y2 => y2
  | _ => false

/-- Append the matplotlib artists of the flushed records that are
bound to the given axes identity. -/
def flushInto (ax : Axes) (flushed : List DeferredTrace) (y2 : Bool) : Axes :=
  { ax with artists := ax.artists ++
      (flushed.filter (fun t => boundToY2 t = y2)).map toArtist }

/-- `Plotter.draw()` invoked on the primary instance. -/
def drawPrimary (g : Gl) (p : Plot) : Plot :=
  if p.primary.alreadyDrawn then p
  else
    let flushed := drawFlushOrder p
    -- `deferred_traces` aliases `self._deferred_traces`: the extended,
    -- sorted list stays in the primary instance.
    let prim := { p.primary with alreadyDrawn := true, deferredTraces := flushed }
    let child := p.child.map (fun c => { c with alreadyDrawn := true })
    if g.isMPL then
      let prim := { prim with axes := flushInto prim.axes flushed false }
      let child := child.map (fun c =>
        { c with axes := flushInto c.axes flushed true })
      let (hs, ls) := getLegendHandlesLabels prim.axes
      let (h2, l2, eh2, el2) :=
        match child with
        | some c =>
          let (a, b) := getLegendHandlesLabels c.axes
          (a, b, c.extraHandles, c.extraLabels)
        | none => ([], [], [], [])
      let prim := { prim with
        handlesList := prim.handlesList ++ hs.map Handle.artist ++
          h2.map Handle.artist ++ prim.extraHandles.map Handle.line2D ++
          eh2.map Handle.line2D
        labelsList := prim.labelsList ++ ls ++ l2 ++ prim.extraLabels ++ el2 }
      { p with primary := prim, child := child }
    else
      { p with primary := prim, child := child
               graph := { p.graph with
                 traces := p.graph.traces ++ flushed.map toGoTrace } }

/-- `Plotter.draw()` invoked on the secondary-axis instance (which has
no `_child_plotter` of its own). -/
def drawChildSelf (g : Gl) (p : Plot) : Plot :=
  match p.child with
  | none => p
  | some c =>
    if c.alreadyDrawn then p
    else
      let flushed := sortTraces c.deferredTraces
      let c2 := { c with alreadyDrawn := true, deferredTraces := flushed }
      if g.isMPL then
        let prim := { p.primary with
          axes := flushInto p.primary.axes flushed false }
        let c2 := { c2 with axes := flushInto c2.axes flushed true }
        let (hs, ls) := getLegendHandlesLabels c2.axes
        let c2 := { c2 with
          handlesList := c2.handlesList ++ hs.map Handle.artist ++
            c2.extraHandles.map Handle.line2D
          labelsList := c2.labelsList ++ ls ++ c2.extraLabels }
        { p with primary := prim, child := some c2 }
      else
        { p with child := some c2
                 graph := { p.graph with
                   traces := p.graph.traces ++ flushed.map toGoTrace } }

/-- `Plotter.draw()`; `w = true` selects the secondary instance. -/
def draw (g : Gl) (p : Plot) (w : Bool) : Plot :=
  if w then drawChildSelf g p else drawPrimary g p

/-- `Plotter.addYAxis`, acting on the plot; `w = true` means the call
is made on the secondary instance. -/
def addYAxis (g : Gl) (p : Plot) (w : Bool) : Except PyErr Plot :=
  let cOpt := if w then p.child else some p.primary
  match cOpt with
  | none => .error .nameError
  | some c =>
    if c.yaxisId = Y2_AXIS_ID then
      .error (.runtimeError "This axis is already the second y-axis")
    else if p.child.isSome then
      .error (.runtimeError "Plot already has second y-axis")
    else
      -- A fresh instance: `twinx()` axes in matplotlib, the shared
      -- figure (plus the base layout re-applied, then the y2 layout)
      -- in plotly; then `_yaxis_id` is set to `'y2'`.
      let newChild := { freshCtx with yaxisId := Y2_AXIS_ID }
      let graph :=
        if g.isMPL then p.graph
        else { p.graph with layout := p.graph.layout ++ [.baseStyle, .y2Style] }
      .ok { p with child := some newChild, graph := graph }

/-- The malformed-axis-limit guard of `setXLim` / `setYLim`:
`(vmax is None and vmin != 0) or (vmin is None and vmax != 0)`
(note `None != 0` is true in Python). -/
def limGuard (vmin vmax : Option Rat) : Bool :=
  (vmax = none ∧ vmin ≠ some 0) ∨ (vmin = none ∧ vmax ≠ some 0)

def xlimErrMsg : String :=
  "Wrong values passed for setXLim(): if None is passed to either xmin or xmax, the other limit must be set to 0."

def ylimErrMsg : String :=
  "Wrong values passed for setYLim(): if None is passed to either ymin or ymax, the other limit must be set to 0."

/-- `Plotter.setXLim`. -/
def setXLimC (g : Gl) (c : Ctx) (gr : GraphObj) (xmin xmax : Option Rat) :
    Except PyErr (Ctx × GraphObj) :=
  if limGuard xmin xmax then .error (.valueError xlimErrMsg)
  else if g.isMPL then
    .ok ({ c with axes := { c.axes with cfg := c.axes.cfg ++ [.xlim xmin xmax] } },
         gr)
  else
    match xmin, xmax with
    | none, none => .ok (c, gr)
    | _, none => .ok (c, { gr with layout := gr.layout ++
        [.xaxisRangemode "nonnegative"] })
    | none, _ => .ok (c, { gr with layout := gr.layout ++
        [.xaxisRangemode "tozero"] })
    | some a, some b => .ok (c, { gr with layout := gr.layout ++
        [.xaxisRange a b] })

/-- `Plotter.setYLim` (the plotly branch addresses `yaxis2` when the
calling instance is the secondary axis). -/
def setYLimC (g : Gl) (c : Ctx) (gr : GraphObj) (ymin ymax : Option Rat) :
    Except PyErr (Ctx × GraphObj) :=
  if limGuard ymin ymax then .error (.valueError ylimErrMsg)
  else if g.isMPL then
    .ok ({ c with axes := { c.axes with cfg := c.axes.cfg ++ [.ylim ymin ymax] } },
         gr)
  else
    let axis := if c.yaxisId = Y2_AXIS_ID then "yaxis2" else "yaxis"
    match ymin, ymax with
    | none, none => .ok (c, gr)
    | _, none => .ok (c, { gr with layout := gr.layout ++
        [.yaxisRangemode axis "nonnegative"] })
    | none, _ => .ok (c, { gr with layout := gr.layout ++
        [.yaxisRangemode axis "tozero"] })
    | some a, some b => .ok (c, { gr with layout := gr.layout ++
        [.yaxisRange axis a b] })

/-- `Plotter.setGraphTitle`. -/
def setGraphTitleC (g : Gl) (c : Ctx) (gr : GraphObj) (t : String) :
    Ctx × GraphObj :=
  if g.isMPL then
    ({ c with axes := { c.axes with cfg := c.axes.cfg ++ [.title t] } }, gr)
  else (c, { gr with layout := gr.layout ++ [.title t] })

/-- `Plotter.setXLabel`. -/
def setXLabelC (g : Gl) (c : Ctx) (gr : GraphObj) (t : String) :
    Ctx × GraphObj :=
  if g.isMPL then
    ({ c with axes := { c.axes with cfg := c.axes.cfg ++ [.xlabel t] } }, gr)
  else (c, { gr with layout := gr.layout ++ [.xaxisTitle t] })

/-- `Plotter.setYLabel`. -/
def setYLabelC (g : Gl) (c : Ctx) (gr : GraphObj) (t : String) :
    Ctx × GraphObj :=
  if g.isMPL then
    ({ c with axes := { c.axes with cfg := c.axes.cfg ++ [.ylabel t] } }, gr)
  else
    let axis := if c.yaxisId = Y2_AXIS_ID then "yaxis2" else "yaxis"
    (c, { gr with layout := gr.layout ++ [.yaxisTitle axis t] })

/-- `Plotter.setXTickValues`. -/
def setXTickValuesC (g : Gl) (c : Ctx) (gr : GraphObj) (vs : PyData) :
    Ctx × GraphObj :=
  if g.isMPL then
    ({ c with axes := { c.axes with cfg := c.axes.cfg ++ [.xticks vs] } }, gr)
  else (c, { gr with layout := gr.layout ++ [.xTickVals vs] })

/-- `Plotter.setXTickLabels`. -/
def setXTickLabelsC (g : Gl) (c : Ctx) (gr : GraphObj) (ts : List String) :
    Ctx × GraphObj :=
  if g.isMPL then
    ({ c with axes := { c.axes with cfg := c.axes.cfg ++ [.xticklabels ts] } }, gr)
  else (c, { gr with layout := gr.layout ++ [.xTickText ts] })

/-- `Plotter.setYTickSuffix`. -/
def setYTickSuffixC (g : Gl) (c : Ctx) (gr : GraphObj) (suf : String) :
    Ctx × GraphObj :=
  if g.isMPL then
    ({ c with axes := { c.axes with cfg := c.axes.cfg ++ [.yTickFormatter suf] } },
     gr)
  else
    let axis := if c.yaxisId = Y2_AXIS_ID then "yaxis2" else "yaxis"
    (c, { gr with layout := gr.layout ++ [.yTickSuffix axis suf] })

/-- `Plotter.setYTickLabelcolor`. -/
def setYTickLabelcolorC (g : Gl) (c : Ctx) (gr : GraphObj) (col : KWVal) :
    Ctx × GraphObj :=
  if g.isMPL then
    ({ c with axes := { c.axes with cfg := c.axes.cfg ++ [.tickParams col] } },
     gr)
  else
    let axis := if c.yaxisId = Y2_AXIS_ID then "yaxis2" else "yaxis"
    (c, { gr with layout := gr.layout ++ [.yTickColor axis col] })

/-! ## The public call surface -/

/-- Select the `Plotter` instance a call is made on (`w = true`: the
secondary-axis instance returned by `addYAxis`). -/
def Plot.ctxOf (p : Plot) (w : Bool) : Option Ctx :=
  if w then p.child else some p.primary

def Plot.withCtx (p : Plot) (w : Bool) (c : Ctx) : Plot :=
  if w then { p with child := some c } else { p with primary := c }

/-- Run a context-plus-figure operation on the selected instance.  A
call on a secondary instance that was never created has no Python
counterpart (there is no object to call); it maps to `nameError`. -/
def onCtx (p : Plot) (w : Bool)
    (f : Ctx → GraphObj → Except PyErr (Ctx × GraphObj × List Warn)) :
    Except PyErr Plot :=
  match p.ctxOf w with
  | none => .error .nameError
  | some c =>
    match f c p.graph with
    | .error e => .error e
    | .ok (c2, g2, ws) =>
      .ok { p.withCtx w c2 with graph := g2, warns := p.warns ++ ws }

/-- One call to the public surface of `Plotter`. -/
inductive OpCall where
  | addScatter (w : Bool) (x y : PyData) (z : Int) (kw : KW)
  | addLine (w : Bool) (x y : PyData) (z : Int) (kw : KW)
  | addBar (w : Bool) (x y : PyData) (z : Int) (kw : KW)
  | addStep (w : Bool) (x y : PyData) (z : Int) (kw : KW)
  | fillBetween (w : Bool) (x y1 y2 : PyData) (color : String) (alpha : Rat)
      (z : Int)
  | createVLine (w : Bool) (x : PyFloat) (z : Int) (kw : KW)
  | createHLine (w : Bool) (y : PyFloat) (z : Int) (kw : KW)
  | addLegendItem (w : Bool) (kw : KW)
  | legend (w : Bool) (kw : KW)
  | updateLegendText (w : Bool) (item newText : String) (append : Bool)
  | addYAxis (w : Bool)
  | draw (w : Bool)
  | setXLim (w : Bool) (xmin xmax : Option Rat)
  | setYLim (w : Bool) (ymin ymax : Option Rat)
  | setGraphTitle (w : Bool) (t : String)
  | setXLabel (w : Bool) (t : String)
  | setYLabel (w : Bool) (t : String)
  | setXTickValues (w : Bool) (vs : PyData)
  | setXTickLabels (w : Bool) (ts : List String)
  | setYTickSuffix (w : Bool) (suf : String)
  | setYTickLabelcolor (w : Bool) (col : KWVal)

/-- Execute one call. -/
def runOp (g : Gl) (p : Plot) : OpCall → Except PyErr Plot
  | .addScatter w x y z kw => onCtx p w (fun c gr =>
      match addScatterC g c x y z kw with
      | .error e => .error e
      | .ok (c2, ws) => .ok (c2, gr, ws))
  | .addLine w x y z kw => onCtx p w (fun c gr =>
      match addLineC g c x y z kw with
      | .error e => .error e
      | .ok (c2, ws) => .ok (c2, gr, ws))
  | .addBar w x y z kw => onCtx p w (fun c gr =>
      match addBarC g c x y z kw with
      | .error e => .error e
      | .ok (c2, ws) => .ok (c2, gr, ws))
  | .addStep w x y z kw => onCtx p w (fun c gr =>
      match addStepC g c x y z kw with
      | .error e => .error e
      | .ok (c2, ws) => .ok (c2, gr, ws))
  | .fillBetween w x y1 y2 color alpha z => onCtx p w (fun c gr =>
      .ok (fillBetweenC g c x y1 y2 color alpha z, gr, []))
  | .createVLine w x z kw => onCtx p w (fun c gr => createVLineC g c gr x z kw)
  | .createHLine w y z kw => onCtx p w (fun c gr => createHLineC g c gr y z kw)
  | .addLegendItem w kw => onCtx p w (fun c gr =>
      match addLegendItemC g c kw with
      | .error e => .error e
      | .ok (c2, ws) => .ok (c2, gr, ws))
  | .legend w kw => onCtx p w (fun c gr =>
      match legendC g c gr kw with
      | .error e => .error e
      | .ok (c2, g2) => .ok (c2, g2, []))
  | .updateLegendText w item newText append => onCtx p w (fun c gr =>
      match updateLegendTextC g c gr item newText append with
      | .error e => .error e
      | .ok (c2, g2) => .ok (c2, g2, []))
  | .addYAxis w => addYAxis g p w
  | .draw w =>
    if w ∧ p.child = none then .error .nameError else .ok (draw g p w)
  | .setXLim w xmin xmax => onCtx p w (fun c gr =>
      match setXLimC g c gr xmin xmax with
      | .error e => .error e
      | .ok (c2, g2) => .ok (c2, g2, []))
  | .setYLim w ymin ymax => onCtx p w (fun c gr =>
      match setYLimC g c gr ymin ymax with
      | .error e => .error e
      | .ok (c2, g2) => .ok (c2, g2, []))
  | .setGraphTitle w t => onCtx p w (fun c gr =>
      let (c2, g2) := setGraphTitleC g c gr t; .ok (c2, g2, []))
  | .setXLabel w t => onCtx p w (fun c gr =>
      let (c2, g2) := setXLabelC g c gr t; .ok (c2, g2, []))
  | .setYLabel w t => onCtx p w (fun c gr =>
      let (c2, g2) := setYLabelC g c gr t; .ok (c2, g2, []))
  | .setXTickValues w vs => onCtx p w (fun c gr =>
      let (c2, g2) := setXTickValuesC g c gr vs; .ok (c2, g2, []))
  | .setXTickLabels w ts => onCtx p w (fun c gr =>
      let (c2, g2) := setXTickLabelsC g c gr ts; .ok (c2, g2, []))
  | .setYTickSuffix w suf => onCtx p w (fun c gr =>
      let (c2, g2) := setYTickSuffixC g c gr suf; .ok (c2, g2, []))
  | .setYTickLabelcolor w col => onCtx p w (fun c gr =>
      let (c2, g2) := setYTickLabelcolorC g c gr col; .ok (c2, g2, []))

/-- Execute a sequence of calls. -/
def runOps (g : Gl) (p : Plot) : List OpCall → Except PyErr Plot
  | [] => .ok p
  | op :: ops =>
    match runOp g p op with
    | .error e => .error e
    | .ok p2 => runOps g p2 ops

/-- A trace-adding call on the primary context (the shape of sequence
quantified over by the stable-sort ordering property). -/
inductive AddCall where
  | scatter (x y : PyData) (z : Int) (kw : KW)
  | line (x y : PyData) (z : Int) (kw : KW)
  | bar (x y : PyData) (z : Int) (kw : KW)
  | step (x y : PyData) (z : Int) (kw : KW)

def AddCall.toOp : AddCall → OpCall
  | .scatter x y z kw => .addScatter false x y z kw
  | .line x y z kw => .addLine false x y z kw
  | .bar x y z kw => .addBar false x y z kw
  | .step x y z kw => .addStep false x y z kw

def runAddCalls (g : Gl) (p : Plot) (calls : List AddCall) : Except PyErr Plot :=
  runOps g p (calls.map AddCall.toOp)

/-! ## Concrete global configurations used by scenarios -/

/-- The interactive (plotly) backend configuration. -/
def glPlotly : Gl := { isMPL := false, scaleX := none }

/-- The static (matplotlib) backend configuration. -/
def glMpl : Gl := { isMPL := true, scaleX := none }

/-! ## Basic dictionary lemmas -/

theorem find?_dictMap_of_has (kw : KW) (k : String) (v : KWVal)
    (h : dictHas kw k = true) :
    (kw.map (fun p => if p.1 == k then (k, v) else p)).find?
      (fun p => p.1 == k) = some (k, v) := by
  induction kw with
  | nil => simp [dictHas] at h
  | cons a rest ih =>
    by_cases hk : (a.1 == k) = true
    · simp [List.find?, hk]
    · have hk2 : (a.1 == k) = false := Bool.eq_false_iff.mpr hk
      have hr : dictHas rest k = true := by
        simpa [dictHas, hk2] using h
      have hmap : (a :: rest).map (fun p => if p.1 == k then (k, v) else p) =
          a :: rest.map (fun p => if p.1 == k then (k, v) else p) := by
        simp only [List.map_cons]
        rw [if_neg hk]
      rw [hmap, List.find?_cons_of_neg _ (by simp [hk2])]
      exact ih hr

theorem find?_eq_none_of_not_has (kw : KW) (k : String)
    (h : dictHas kw k = false) :
    kw.find? (fun p => p.1 == k) = none := by
  rw [List.find?_eq_none]
  intro x hx
  have h2 := List.any_eq_false.mp h
  simpa using h2 x hx

theorem dictGet_dictSet_self (kw : KW) (k : String) (v : KWVal) :
    dictGet (dictSet kw k v) k = some v := by
  by_cases h : dictHas kw k = true
  · simp only [dictSet, h, if_true, dictGet]
    rw [find?_dictMap_of_has kw k v h]
    rfl
  · have hf : dictHas kw k = false := Bool.eq_false_iff.mpr h
    simp only [dictSet, hf, Bool.false_eq_true, if_false, dictGet]
    rw [List.find?_append, find?_eq_none_of_not_has kw k hf]
    simp [List.find?]

/-! ## C2: draw is idempotent -/

theorem drawPrimary_of_drawn (g : Gl) (q : Plot)
    (hq : q.primary.alreadyDrawn = true) : drawPrimary g q = q := by
  unfold drawPrimary
  simp [hq]

theorem drawChildSelf_of_drawn (g : Gl) (q : Plot)
    (hq : ∀ c2, q.child = some c2 → c2.alreadyDrawn = true) :
    drawChildSelf g q = q := by
  unfold drawChildSelf
  cases hc : q.child with
  | none => rfl
  | some c2 => simp [hq c2 hc]

theorem drawPrimary_drawn (g : Gl) (p : Plot)
    (h : p.primary.alreadyDrawn = false) :
    (drawPrimary g p).primary.alreadyDrawn = true := by
  unfold drawPrimary
  simp [h]
  by_cases hm : g.isMPL <;> simp [hm]

theorem drawChildSelf_child_drawn (g : Gl) (p : Plot) :
    ∀ c2, (drawChildSelf g p).child = some c2 → c2.alreadyDrawn = true := by
  intro c2
  unfold drawChildSelf
  cases hc : p.child with
  | none => intro h2; rw [hc] at h2; cases h2
  | some c =>
    by_cases h : c.alreadyDrawn
    · simp only [h, if_true]
      intro h2; rw [hc] at h2; cases h2; exact h
    · simp only [h, if_false]
      by_cases hm : g.isMPL <;> simp [hm] <;> intro h2 <;> rw [← h2]

/-- C2: `draw()` is idempotent — a second call to `draw()` on either
`Plotter` instance is a no-op: it leaves the entire plot state (flushed
traces, legend handle/label lists in the static backend, trace-name
list in the interactive backend) exactly as after the first call. -/
theorem c2_draw_idempotent (g : Gl) (p : Plot) (w : Bool) :
    draw g (draw g p w) w = draw g p w := by
  cases w with
  | false =>
    show drawPrimary g (drawPrimary g p) = drawPrimary g p
    by_cases h : p.primary.alreadyDrawn
    · rw [drawPrimary_of_drawn g p h, drawPrimary_of_drawn g p h]
    · exact drawPrimary_of_drawn g _
        (drawPrimary_drawn g p (Bool.eq_false_iff.mpr h))
  | true =>
    show drawChildSelf g (drawChildSelf g p) = drawChildSelf g p
    exact drawChildSelf_of_drawn g _ (drawChildSelf_child_drawn g p)

/-! ## C6 and C10: the axis-limit guard -/

/-- C6: `setXLim` (and `setYLim`) raise the configuration `ValueError`
whenever exactly one bound is `None` while the other is non-zero; the
guard fires before any backend call (the error is returned with no
state change recorded).  `setXLim(xmin=None, xmax=0)` succeeds. -/
theorem c6_setlim_guard (g : Gl) (c : Ctx) (gr : GraphObj) (v : Rat)
    (hv : v ≠ 0) :
    setXLimC g c gr none (some v) = .error (.valueError xlimErrMsg) ∧
    setXLimC g c gr (some v) none = .error (.valueError xlimErrMsg) ∧
    setYLimC g c gr none (some v) = .error (.valueError ylimErrMsg) ∧
    setYLimC g c gr (some v) none = .error (.valueError ylimErrMsg) ∧
    (∃ r, setXLimC g c gr none (some 0) = .ok r) ∧
    (∃ r, setYLimC g c gr none (some 0) = .ok r) := by
  have hg1 : limGuard none (some v) = true := by
    simp [limGuard, hv]
  have hg2 : limGuard (some v) none = true := by
    simp [limGuard, hv]
  have hg3 : limGuard none (some 0) = false := by
    simp [limGuard]
  refine ⟨?_, ?_, ?_, ?_, ?_, ?_⟩
  · simp [setXLimC, hg1]
  · simp [setXLimC, hg2]
  · simp [setYLimC, hg1]
  · simp [setYLimC, hg2]
  · cases hres : setXLimC g c gr none (some 0) with
    | error e =>
      exfalso
      revert hres
      by_cases hm : g.isMPL <;> simp [setXLimC, hg3, hm]
    | ok r => exact ⟨r, rfl⟩
  · cases hres : setYLimC g c gr none (some 0) with
    | error e =>
      exfalso
      revert hres
      by_cases hm : g.isMPL <;> simp [setYLimC, hg3, hm]
    | ok r => exact ⟨r, rfl⟩

/-- Witness for C6 at the interactive backend, fresh context, bound 5. -/
theorem c6_setlim_witness :
    setXLimC glPlotly freshCtx (freshPlot glPlotly).graph none (some 5) =
      .error (.valueError xlimErrMsg) ∧
    (∃ r, setXLimC glPlotly freshCtx (freshPlot glPlotly).graph none (some 0) =
      .ok r) := by
  have h := c6_setlim_guard glPlotly freshCtx (freshPlot glPlotly).graph 5
    (by norm_num)
  exact ⟨h.1, h.2.2.2.2.1⟩

/-- C10: passing `None` for both bounds trips the malformed-limit
guard (`None != 0` is true in Python), so `setXLim(None, None)` and
`setYLim(None, None)` raise, and the both-`None` pass-through branch
in the interactive-backend dispatch is unreachable (it sits behind the
guard, which is always true when both bounds are `None`). -/
theorem c10_bothNone_raises (g : Gl) (c : Ctx) (gr : GraphObj) :
    setXLimC g c gr none none = .error (.valueError xlimErrMsg) ∧
    setYLimC g c gr none none = .error (.valueError ylimErrMsg) ∧
    (∀ vmin vmax : Option Rat, vmin = none → vmax = none →
      limGuard vmin vmax = true) := by
  have hg : limGuard none none = true := by simp [limGuard]
  refine ⟨by simp [setXLimC, hg], by simp [setYLimC, hg], ?_⟩
  intro vmin vmax h1 h2
  subst h1; subst h2
  exact hg

/-! ## Counterexamples for the corrected claims -/

/-- `fillBetween` on the primary context, then a secondary axis with
one line at the same z-order, then `draw()`. -/
def c3CexOps : List OpCall :=
  [.fillBetween false [.num 0] [.num 0] [.num 1] "blue" 1 2,
   .addYAxis false,
   .addLine true [.num 0] [.num 0] 2 [],
   .draw false]

/-- Counterexample to C3 as stated: after the global (z-order,
draw-sequence) sort, the invisible boundary trace (recognizable by its
fully transparent `line_color`) is flushed at index 0 while the
`tonexty` region-fill trace is flushed at index 2 — the secondary
axis's line (same z-order 2, same draw count 0 as the boundary trace)
lands between them, so the two records of one `fillBetween` call are
not adjacent in the global sort. -/
theorem c3_adjacency_counterexample :
    (runOps glPlotly (freshPlot glPlotly) c3CexOps).toOption.map
      (fun p => (p.graph.traces.map (fun t => dictGet t.kwargs "fill"),
                 p.graph.traces.map (fun t => dictGet t.kwargs "line_color"))) =
      some ([none, none, some (KWVal.s "tonexty")],
            [some (KWVal.s "rgba(0,0,0,0)"), none, none]) := by
  rfl

/-- The C4 scenario: `createVLine(x=0, label='ref', linestyle='dashed')`
on a fresh interactive-backend plot. -/
def c4CexOps : List OpCall :=
  [.createVLine false (.num 0) 1 [("label", .s "ref"), ("linestyle", .s "dashed")]]

/-- Counterexample to C4 as stated: the dashed reference line's proxy
legend trace is drawn with `mode='lines'` (a line-style glyph carrying
the dash pattern) and no `marker_symbol` at all — not the marker-style
glyph the claim asserts (the marker glyph `line_ns_open` is reserved
for solid lines in the source).  The shape count, proxy count and
extremal z-order parts of the claim do hold. -/
theorem c4_dashed_vline_counterexample :
    (runOps glPlotly (freshPlot glPlotly) c4CexOps).toOption.map
      (fun p => (p.primary.deferredTraces.map (fun t => dictGet t.kwargs "mode"),
                 p.primary.deferredTraces.map
                   (fun t => dictGet t.kwargs "marker_symbol"),
                 p.primary.deferredTraces.map (fun t => t.zorder),
                 p.graph.shapes.length)) =
      some ([some (KWVal.s "lines")], [none], [10000], 1) ∧
    KWVal.s "lines" ≠ KWVal.s "markers" := by
  exact ⟨by rfl, by decide⟩

/-- A single unlabeled line, then a legend rename of a nonexistent
entry, pre-render, static backend. -/
def c5CexOps : List OpCall :=
  [.addLine false [] [] 2 [],
   .updateLegendText false "X" "t" false]

/-- Counterexample to C5 as stated: with an unlabeled pending trace in
the list, `updateLegendText('X', ...)` raises `KeyError('label')` from
`trace._kwargs[label]` — not the descriptive `ValueError` carrying the
offending name `'X'` that the claim promises for a missing legend
entry. -/
theorem c5_keyError_counterexample :
    runOps glMpl (freshPlot glMpl) c5CexOps = .error (.keyError "label") ∧
    (∀ msg, PyErr.keyError "label" ≠ PyErr.valueError msg) := by
  refine ⟨by rfl, ?_⟩
  intro msg h
  cases h

/-- One primary trace, a secondary axis, one secondary trace, `draw()`. -/
def c9CexOps : List OpCall :=
  [.addLine false [.num 0] [.num 0] 2 [],
   .addYAxis false,
   .addLine true [.num 0] [.num 0] 2 [],
   .draw false]

/-- Counterexample to C9 as stated: the combined record list that
`draw()` assembles (and leaves in the primary context's trace list)
carries draw-sequence values `[0, 0]` — the secondary context's
counter restarts at zero, so the values in list order are not strictly
increasing and the (z-order, draw-sequence) keys are not unique. -/
theorem c9_combined_counterexample :
    (runOps glPlotly (freshPlot glPlotly) c9CexOps).toOption.map
      (fun p => p.primary.deferredTraces.map (fun t => t.drawCount)) =
      some [0, 0] ∧
    ¬ List.Chain' (· < ·) [0, 0] := by
  exact ⟨by rfl, by simp⟩

/-! ## Reachability invariant: draw counts -/

/-- The draw-sequence invariant of one live (not yet drawn) context:
the draw counts of its pending records are strictly increasing in list
order and all below the context's counter. -/
def ctxDCInv (c : Ctx) : Prop :=
  List.Chain' (· < ·) (c.deferredTraces.map (fun t => t.drawCount)) ∧
  ∀ t ∈ c.deferredTraces, t.drawCount < c.drawCount

/-- The plot-level reachability invariant: axis identities are as
created, and each not-yet-drawn context satisfies the draw-count
invariant. -/
def plotInv (p : Plot) : Prop :=
  p.primary.yaxisId = Y1_AXIS_ID ∧
  (p.primary.alreadyDrawn = false → ctxDCInv p.primary) ∧
  ∀ c, p.child = some c →
    c.yaxisId = Y2_AXIS_ID ∧ (c.alreadyDrawn = false → ctxDCInv c)

theorem ctxDCInv_pushTrace (c : Ctx) (fn : DrawFn) (x y : PyData) (z : Int)
    (kw : KW) (h : ctxDCInv c) : ctxDCInv (pushTrace c fn x y z kw) := by
  obtain ⟨hch, hbd⟩ := h
  constructor
  · simp only [pushTrace, List.map_append, List.map_cons, List.map_nil]
    rw [List.chain'_append]
    refine ⟨hch, List.chain'_singleton _, ?_⟩
    intro a ha b hb
    simp only [List.head?_cons, Option.mem_def, Option.some.injEq] at hb
    subst hb
    have ha2 : a ∈ c.deferredTraces.map (fun t => t.drawCount) :=
      List.mem_of_mem_getLast? ha
    obtain ⟨t, ht, rfl⟩ := List.mem_map.mp ha2
    exact hbd t ht
  · intro t ht
    simp only [pushTrace, List.mem_append, List.mem_singleton] at ht
    rcases ht with ht | rfl
    · exact (hbd t ht).trans (Nat.lt_succ_self _)
    · exact Nat.lt_succ_self _

/-- Transport `ctxDCInv` along equality of the relevant fields. -/
theorem ctxDCInv_congr (c c2 : Ctx)
    (hd : c2.deferredTraces = c.deferredTraces)
    (hn : c2.drawCount = c.drawCount) (h : ctxDCInv c) : ctxDCInv c2 := by
  unfold ctxDCInv
  rw [hd, hn]
  exact h

theorem dcbound_of_map_eq (ts ts2 : List DeferredTrace) (n : Nat)
    (hm : ts2.map (fun t => t.drawCount) = ts.map (fun t => t.drawCount))
    (hb : ∀ t ∈ ts, t.drawCount < n) : ∀ t ∈ ts2, t.drawCount < n := by
  intro t ht
  have hmem : t.drawCount ∈ ts2.map (fun t => t.drawCount) :=
    List.mem_map_of_mem _ ht
  rw [hm] at hmem
  obtain ⟨t2, ht2, he⟩ := List.mem_map.mp hmem
  exact he ▸ hb t2 ht2

/-- `legendScan` (the pre-render rewrite loop of `updateLegendText`)
preserves the draw counts of the pending records. -/
theorem legendScan_map_dc (key item newLabel : String) :
    ∀ ts ts2, legendScan key item newLabel ts = .ok ts2 →
      ts2.map (fun t => t.drawCount) = ts.map (fun t => t.drawCount) := by
  intro ts
  induction ts with
  | nil => intro ts2 h; cases h
  | cons t rest ih =>
    intro ts2 h
    unfold legendScan at h
    cases hg : dictGet t.kwargs key with
    | none =>
      rw [hg] at h
      exact Except.noConfusion h
    | some v =>
      simp only [hg] at h
      by_cases hv : v = .s item
      · rw [if_pos hv] at h
        cases h
        simp
      · rw [if_neg hv] at h
        cases hrec : legendScan key item newLabel rest with
        | error e =>
          rw [hrec] at h
          exact Except.noConfusion h
        | ok r2 =>
          rw [hrec] at h
          have h2 : (Except.ok (t :: r2) : Except PyErr (List DeferredTrace)) =
              Except.ok ts2 := h
          cases h2
          simp only [List.map_cons]
          rw [ih r2 hrec]

/-- What one context-level call may do to the fields the draw-count
invariant cares about: axis identity and drawn flag are untouched, and
the invariant survives. -/
def ctxEvolves (c c2 : Ctx) : Prop :=
  c2.yaxisId = c.yaxisId ∧ c2.alreadyDrawn = c.alreadyDrawn ∧
  (ctxDCInv c → ctxDCInv c2)

theorem ctxEvolves_refl (c : Ctx) : ctxEvolves c c := ⟨rfl, rfl, id⟩

theorem ctxEvolves_trans {a b c : Ctx} (h1 : ctxEvolves a b)
    (h2 : ctxEvolves b c) : ctxEvolves a c :=
  ⟨h2.1.trans h1.1, h2.2.1.trans h1.2.1, fun h => h2.2.2 (h1.2.2 h)⟩

theorem ctxEvolves_pushTrace (c : Ctx) (fn : DrawFn) (x y : PyData) (z : Int)
    (kw : KW) : ctxEvolves c (pushTrace c fn x y z kw) :=
  ⟨rfl, rfl, ctxDCInv_pushTrace c fn x y z kw⟩

theorem ctxEvolves_tracenames (c : Ctx) (tn : List String) :
    ctxEvolves c { c with tracenames := tn } :=
  ⟨rfl, rfl, ctxDCInv_congr _ _ rfl rfl⟩

theorem convertKWTail_ctx (c : Ctx) (tt : TraceType) (lg : Option KWVal)
    (a : KW) (m : List String) (w : List Warn) :
    ∃ tn, (convertKWTail c tt lg a m w).2.1 = { c with tracenames := tn } := by
  unfold convertKWTail
  by_cases h : tt = TraceType.HVline
  · rw [if_pos h]
    exact ⟨c.tracenames, rfl⟩
  · rw [if_neg h]
    dsimp only
    cases hg : dictGet (dictSet
        (if tt = TraceType.Line ∧ m ≠ [] then
          dictSet a "mode" (.s (String.intercalate "+" m))
        else a) "yaxis" (.s c.yaxisId)) "name" with
    | none => exact ⟨c.tracenames, rfl⟩
    | some nm => exact ⟨_, rfl⟩

theorem convertKWArgs_ctx (c : Ctx) (tt : TraceType) (lg : Option KWVal)
    (kw pkw : KW) (c2 : Ctx) (ws : List Warn)
    (h : convertKWArgs c tt lg kw = .ok (pkw, c2, ws)) :
    ∃ tn, c2 = { c with tracenames := tn } := by
  cases lg with
  | some g =>
    simp only [convertKWArgs] at h
    by_cases h1 : dictHas kw "legendgroup"
    · rw [if_pos h1] at h
      exact Except.noConfusion h
    · rw [if_neg h1] at h
      by_cases hq : dictHas kw "tracetype"
      · rw [if_pos hq] at h
        exact Except.noConfusion h
      · rw [if_neg hq] at h
        cases hcl : convertLoop tt kw [] [] [] with
        | error e =>
          rw [hcl] at h
          exact Except.noConfusion h
        | ok r =>
          obtain ⟨a, m, w0⟩ := r
          rw [hcl] at h
          have h2 : (Except.ok (convertKWTail c tt (lgBind (some g)) a m w0) :
              Except PyErr (KW × Ctx × List Warn)) = .ok (pkw, c2, ws) := h
          injection h2 with h3
          obtain ⟨tn, htn⟩ := convertKWTail_ctx c tt (lgBind (some g)) a m w0
          refine ⟨tn, ?_⟩
          have hc2 : c2 = (convertKWTail c tt (lgBind (some g)) a m w0).2.1 := by
            rw [h3]
          rw [hc2, htn]
  | none =>
    simp only [convertKWArgs] at h
    by_cases hq : dictHas kw "tracetype"
    · rw [if_pos hq] at h
      exact Except.noConfusion h
    · rw [if_neg hq] at h
      cases hcl : convertLoop tt (dictPop kw "legendgroup") [] [] [] with
      | error e =>
        rw [hcl] at h
        exact Except.noConfusion h
      | ok r =>
        obtain ⟨a, m, w0⟩ := r
        rw [hcl] at h
        have h2 : (Except.ok (convertKWTail c tt
            (lgBind (dictGet kw "legendgroup")) a m w0) :
            Except PyErr (KW × Ctx × List Warn)) = .ok (pkw, c2, ws) := h
        injection h2 with h3
        obtain ⟨tn, htn⟩ := convertKWTail_ctx c tt
          (lgBind (dictGet kw "legendgroup")) a m w0
        refine ⟨tn, ?_⟩
        have hc2 : c2 = (convertKWTail c tt
            (lgBind (dictGet kw "legendgroup")) a m w0).2.1 := by
          rw [h3]
        rw [hc2, htn]

theorem convertKWArgs_evolves (c : Ctx) (tt : TraceType) (lg : Option KWVal)
    (kw pkw : KW) (c2 : Ctx) (ws : List Warn)
    (h : convertKWArgs c tt lg kw = .ok (pkw, c2, ws)) : ctxEvolves c c2 := by
  obtain ⟨tn, htn⟩ := convertKWArgs_ctx c tt lg kw pkw c2 ws h
  rw [htn]
  exact ctxEvolves_tracenames c tn

theorem addScatterC_evolves (g : Gl) (c : Ctx) (x y : PyData) (z : Int)
    (kw : KW) (c2 : Ctx) (ws : List Warn)
    (h : addScatterC g c x y z kw = .ok (c2, ws)) : ctxEvolves c c2 := by
  unfold addScatterC at h
  by_cases hm : g.isMPL
  · rw [if_pos hm] at h
    injection h with h2
    injection h2 with h3 h4
    rw [← h3]
    exact ctxEvolves_pushTrace c _ x y z kw
  · rw [if_neg hm] at h
    cases hcv : convertKWArgs c .Scatter none kw with
    | error e =>
      rw [hcv] at h
      exact Except.noConfusion h
    | ok r =>
      obtain ⟨pkw, c3, ws0⟩ := r
      rw [hcv] at h
      injection h with h2
      injection h2 with h3 h4
      rw [← h3]
      exact ctxEvolves_trans (convertKWArgs_evolves c _ _ kw pkw c3 ws0 hcv)
        (ctxEvolves_pushTrace c3 _ x y z _)

theorem addLineC_evolves (g : Gl) (c : Ctx) (x y : PyData) (z : Int)
    (kw : KW) (c2 : Ctx) (ws : List Warn)
    (h : addLineC g c x y z kw = .ok (c2, ws)) : ctxEvolves c c2 := by
  unfold addLineC at h
  by_cases hm : g.isMPL
  · rw [if_pos hm] at h
    injection h with h2
    injection h2 with h3 h4
    rw [← h3]
    exact ctxEvolves_pushTrace c _ x y z kw
  · rw [if_neg hm] at h
    cases hcv : convertKWArgs c .Line none kw with
    | error e =>
      rw [hcv] at h
      exact Except.noConfusion h
    | ok r =>
      obtain ⟨pkw, c3, ws0⟩ := r
      rw [hcv] at h
      injection h with h2
      injection h2 with h3 h4
      rw [← h3]
      exact ctxEvolves_trans (convertKWArgs_evolves c _ _ kw pkw c3 ws0 hcv)
        (ctxEvolves_pushTrace c3 _ x y z _)

theorem addStepC_evolves (g : Gl) (c : Ctx) (x y : PyData) (z : Int)
    (kw : KW) (c2 : Ctx) (ws : List Warn)
    (h : addStepC g c x y z kw = .ok (c2, ws)) : ctxEvolves c c2 := by
  unfold addStepC at h
  by_cases hm : g.isMPL
  · rw [if_pos hm] at h
    injection h with h2
    injection h2 with h3 h4
    rw [← h3]
    exact ctxEvolves_pushTrace c _ x y z kw
  · rw [if_neg hm] at h
    cases hcv : convertKWArgs c .Step none kw with
    | error e =>
      rw [hcv] at h
      exact Except.noConfusion h
    | ok r =>
      obtain ⟨pkw, c3, ws0⟩ := r
      rw [hcv] at h
      injection h with h2
      injection h2 with h3 h4
      rw [← h3]
      exact ctxEvolves_trans (convertKWArgs_evolves c _ _ kw pkw c3 ws0 hcv)
        (ctxEvolves_pushTrace c3 _ x y z _)

theorem addBarC_evolves (g : Gl) (c : Ctx) (x y : PyData) (z : Int)
    (kw : KW) (c2 : Ctx) (ws : List Warn)
    (h : addBarC g c x y z kw = .ok (c2, ws)) : ctxEvolves c c2 := by
  unfold addBarC at h
  by_cases hm : g.isMPL
  · rw [if_pos hm] at h
    injection h with h2
    injection h2 with h3 h4
    rw [← h3]
    exact ctxEvolves_pushTrace c _ x y z kw
  · rw [if_neg hm] at h
    cases hcv : convertKWArgs c .Bar none kw with
    | error e =>
      rw [hcv] at h
      exact Except.noConfusion h
    | ok r =>
      obtain ⟨pkw, c3, ws0⟩ := r
      rw [hcv] at h
      dsimp only at h
      have hev := convertKWArgs_evolves c _ _ kw pkw c3 ws0 hcv
      by_cases ha : dictGet kw "align" = some (.s "edge")
      · rw [if_pos ha] at h
        cases hr : x.reverse with
        | nil =>
          rw [hr] at h
          exact Except.noConfusion h
        | cons a rest =>
          cases rest with
          | nil =>
            rw [hr] at h
            exact Except.noConfusion h
          | cons b rest2 =>
            rw [hr] at h
            injection h with h2
            injection h2 with h3 h4
            rw [← h3]
            exact ctxEvolves_trans hev (ctxEvolves_pushTrace c3 _ _ y z _)
      · rw [if_neg ha] at h
        injection h with h2
        injection h2 with h3 h4
        rw [← h3]
        exact ctxEvolves_trans hev (ctxEvolves_pushTrace c3 _ x y z _)

theorem fillBetweenC_evolves (g : Gl) (c : Ctx) (x y1 y2 : PyData)
    (color : String) (alpha : Rat) (z : Int) :
    ctxEvolves c (fillBetweenC g c x y1 y2 color alpha z) := by
  unfold fillBetweenC
  by_cases hm : g.isMPL
  · rw [if_pos hm]
    exact ctxEvolves_pushTrace c _ x y1 z _
  · rw [if_neg hm]
    exact ctxEvolves_trans (ctxEvolves_pushTrace c _ x y1 z _)
      (ctxEvolves_pushTrace _ _ x y2 z _)

theorem ctxEvolves_of_fields {c c2 : Ctx} (hy : c2.yaxisId = c.yaxisId)
    (ha : c2.alreadyDrawn = c.alreadyDrawn)
    (hd : c2.deferredTraces = c.deferredTraces)
    (hn : c2.drawCount = c.drawCount) : ctxEvolves c c2 :=
  ⟨hy, ha, ctxDCInv_congr c c2 hd hn⟩

theorem solidProxyPlotly_evolves (c : Ctx) (pkw : KW) (nm : KWVal) (c2 : Ctx)
    (h : solidProxyPlotly c pkw nm = .ok c2) : ctxEvolves c c2 := by
  unfold solidProxyPlotly at h
  cases hlc : dictGet pkw "line_color" with
  | none =>
    rw [hlc] at h
    exact Except.noConfusion h
  | some lc =>
    rw [hlc] at h
    injection h with h2
    rw [← h2]
    exact ctxEvolves_pushTrace c _ _ _ _ _

theorem createVLineC_evolves (g : Gl) (c : Ctx) (gr : GraphObj) (x : PyFloat)
    (z : Int) (kw : KW) (c2 : Ctx) (gr2 : GraphObj) (ws : List Warn)
    (h : createVLineC g c gr x z kw = .ok (c2, gr2, ws)) : ctxEvolves c c2 := by
  unfold createVLineC at h
  by_cases hm : g.isMPL
  · rw [if_pos hm] at h
    cases hl : dictGet kw "label" with
    | some labelVal =>
      rw [hl] at h
      dsimp only at h
      cases hpx : vlineProxyMpl g labelVal (dictPop kw "label") with
      | error e =>
        rw [hpx] at h
        exact Except.noConfusion h
      | ok line =>
        rw [hpx] at h
        injection h with h2
        injection h2 with h3 h4
        rw [← h3]
        exact ctxEvolves_of_fields rfl rfl rfl rfl
    | none =>
      rw [hl] at h
      dsimp only at h
      injection h with h2
      injection h2 with h3 h4
      rw [← h3]
      exact ctxEvolves_of_fields rfl rfl rfl rfl
  · rw [if_neg hm] at h
    cases hcv : convertKWArgs c .HVline none kw with
    | error e =>
      rw [hcv] at h
      exact Except.noConfusion h
    | ok r =>
      obtain ⟨pkw, c3, ws0⟩ := r
      rw [hcv] at h
      dsimp only at h
      have hev := convertKWArgs_evolves c _ _ kw pkw c3 ws0 hcv
      cases hnm : dictGet pkw "name" with
      | none =>
        rw [hnm] at h
        injection h with h2
        injection h2 with h3 h4
        rw [← h3]
        exact hev
      | some nm =>
        rw [hnm] at h
        dsimp only at h
        have hev2 : ctxEvolves c { c3 with
            tracenames := c3.tracenames ++ [kwvalStr nm] } :=
          ctxEvolves_trans hev (ctxEvolves_of_fields rfl rfl rfl rfl)
        cases hld : dictGet pkw "line_dash" with
        | some d =>
          rw [hld] at h
          dsimp only at h
          by_cases hd2 : d ≠ KWVal.s "solid" ∧ d ≠ KWVal.s "-"
          · rw [if_pos hd2] at h
            injection h with h2
            injection h2 with h3 h4
            rw [← h3]
            exact ctxEvolves_trans hev2 (ctxEvolves_pushTrace _ _ _ _ _ _)
          · rw [if_neg hd2] at h
            cases hsp : solidProxyPlotly
                { c3 with tracenames := c3.tracenames ++ [kwvalStr nm] }
                pkw nm with
            | error e =>
              rw [hsp] at h
              exact Except.noConfusion h
            | ok c4 =>
              rw [hsp] at h
              injection h with h2
              injection h2 with h3 h4
              rw [← h3]
              exact ctxEvolves_trans hev2
                (solidProxyPlotly_evolves _ pkw nm c4 hsp)
        | none =>
          rw [hld] at h
          dsimp only at h
          cases hsp : solidProxyPlotly
              { c3 with tracenames := c3.tracenames ++ [kwvalStr nm] }
              pkw nm with
          | error e =>
            rw [hsp] at h
            exact Except.noConfusion h
          | ok c4 =>
            rw [hsp] at h
            injection h with h2
            injection h2 with h3 h4
            rw [← h3]
            exact ctxEvolves_trans hev2
              (solidProxyPlotly_evolves _ pkw nm c4 hsp)

theorem createHLineC_evolves (g : Gl) (c : Ctx) (gr : GraphObj) (y : PyFloat)
    (z : Int) (kw : KW) (c2 : Ctx) (gr2 : GraphObj) (ws : List Warn)
    (h : createHLineC g c gr y z kw = .ok (c2, gr2, ws)) : ctxEvolves c c2 := by
  unfold createHLineC at h
  by_cases hm : g.isMPL
  · rw [if_pos hm] at h
    dsimp only at h
    cases hl : dictGet kw "label" with
    | some labelVal =>
      rw [hl] at h
      injection h with h2
      injection h2 with h3 h4
      rw [← h3]
      exact ctxEvolves_of_fields rfl rfl rfl rfl
    | none =>
      rw [hl] at h
      injection h with h2
      injection h2 with h3 h4
      rw [← h3]
      exact ctxEvolves_of_fields rfl rfl rfl rfl
  · rw [if_neg hm] at h
    cases hcv : convertKWArgs c .HVline none kw with
    | error e =>
      rw [hcv] at h
      exact Except.noConfusion h
    | ok r =>
      obtain ⟨pkw, c3, ws0⟩ := r
      rw [hcv] at h
      dsimp only at h
      have hev := convertKWArgs_evolves c _ _ kw pkw c3 ws0 hcv
      cases hnm : dictGet pkw "name" with
      | none =>
        rw [hnm] at h
        injection h with h2
        injection h2 with h3 h4
        rw [← h3]
        exact hev
      | some nm =>
        rw [hnm] at h
        injection h with h2
        injection h2 with h3 h4
        rw [← h3]
        exact ctxEvolves_trans hev (ctxEvolves_trans
          (ctxEvolves_of_fields rfl rfl rfl rfl)
          (ctxEvolves_pushTrace _ _ _ _ _ _))

theorem addLegendItemC_evolves (g : Gl) (c : Ctx) (kw : KW) (c2 : Ctx)
    (ws : List Warn) (h : addLegendItemC g c kw = .ok (c2, ws)) :
    ctxEvolves c c2 := by
  unfold addLegendItemC at h
  by_cases hd : c.alreadyDrawn
  · rw [if_pos hd] at h
    exact Except.noConfusion h
  · rw [if_neg hd] at h
    by_cases hm : g.isMPL
    · rw [if_pos hm] at h
      injection h with h2
      injection h2 with h3 h4
      rw [← h3]
      exact ctxEvolves_of_fields rfl rfl rfl rfl
    · rw [if_neg hm] at h
      cases hcv : convertKWArgs c .Scatter (some (.s "extra")) kw with
      | error e =>
        rw [hcv] at h
        exact Except.noConfusion h
      | ok r =>
        obtain ⟨pkw, c3, ws0⟩ := r
        rw [hcv] at h
        injection h with h2
        injection h2 with h3 h4
        rw [← h3]
        exact ctxEvolves_trans (convertKWArgs_evolves c _ _ kw pkw c3 ws0 hcv)
          (ctxEvolves_pushTrace _ _ _ _ _ _)

theorem legendC_evolves (g : Gl) (c : Ctx) (gr : GraphObj) (kw : KW) (c2 : Ctx)
    (gr2 : GraphObj) (h : legendC g c gr kw = .ok (c2, gr2)) :
    ctxEvolves c c2 := by
  unfold legendC at h
  by_cases hd : ¬ c.alreadyDrawn
  · rw [if_pos hd] at h
    exact Except.noConfusion h
  · rw [if_neg hd] at h
    by_cases hm : g.isMPL
    · rw [if_pos hm] at h
      injection h with h2
      injection h2 with h3 h4
      rw [← h3]
      exact ctxEvolves_of_fields rfl rfl rfl rfl
    · rw [if_neg hm] at h
      injection h with h2
      injection h2 with h3 h4
      rw [← h3]
      exact ctxEvolves_refl c

theorem ctxEvolves_legendScan (c : Ctx) (key item nl : String)
    (ts2 : List DeferredTrace)
    (h : legendScan key item nl c.deferredTraces = .ok ts2) :
    ctxEvolves c { c with deferredTraces := ts2 } := by
  refine ⟨rfl, rfl, fun hinv => ?_⟩
  have hmap := legendScan_map_dc key item nl c.deferredTraces ts2 h
  constructor
  · show List.Chain' (· < ·) (ts2.map (fun t => t.drawCount))
    rw [hmap]
    exact hinv.1
  · exact dcbound_of_map_eq _ _ _ hmap hinv.2

theorem updateLegendTextC_evolves (g : Gl) (c : Ctx) (gr : GraphObj)
    (item newText : String) (append : Bool) (c2 : Ctx) (gr2 : GraphObj)
    (h : updateLegendTextC g c gr item newText append = .ok (c2, gr2)) :
    ctxEvolves c c2 := by
  unfold updateLegendTextC at h
  by_cases hd : c.alreadyDrawn
  · rw [if_pos hd] at h
    by_cases hm : g.isMPL
    · rw [if_pos hm] at h
      by_cases hmem : item ∈ c.labelsList
      · rw [if_pos hmem] at h
        injection h with h2
        injection h2 with h3 h4
        rw [← h3]
        exact ctxEvolves_of_fields rfl rfl rfl rfl
      · rw [if_neg hmem] at h
        exact Except.noConfusion h
    · rw [if_neg hm] at h
      by_cases hmem : item ∈ c.tracenames
      · rw [if_pos hmem] at h
        injection h with h2
        injection h2 with h3 h4
        rw [← h3]
        exact ctxEvolves_of_fields rfl rfl rfl rfl
      · rw [if_neg hmem] at h
        exact Except.noConfusion h
  · rw [if_neg hd] at h
    dsimp only at h
    cases hsc : legendScan (if g.isMPL then "label" else "name") item
        ((if append then item else "") ++ newText) c.deferredTraces with
    | error e =>
      rw [hsc] at h
      exact Except.noConfusion h
    | ok ts2 =>
      rw [hsc] at h
      injection h with h2
      injection h2 with h3 h4
      rw [← h3]
      exact ctxEvolves_legendScan c _ item _ ts2 hsc

theorem setXLimC_evolves (g : Gl) (c : Ctx) (gr : GraphObj)
    (xmin xmax : Option Rat) (c2 : Ctx) (gr2 : GraphObj)
    (h : setXLimC g c gr xmin xmax = .ok (c2, gr2)) : ctxEvolves c c2 := by
  unfold setXLimC at h
  by_cases hg : limGuard xmin xmax
  · rw [if_pos hg] at h
    exact Except.noConfusion h
  · rw [if_neg hg] at h
    by_cases hm : g.isMPL
    · rw [if_pos hm] at h
      injection h with h2
      injection h2 with h3 h4
      rw [← h3]
      exact ctxEvolves_of_fields rfl rfl rfl rfl
    · rw [if_neg hm] at h
      rcases xmin with _ | a <;> rcases xmax with _ | b <;>
        · injection h with h2
          injection h2 with h3 h4
          rw [← h3]
          exact ctxEvolves_refl c

theorem setYLimC_evolves (g : Gl) (c : Ctx) (gr : GraphObj)
    (ymin ymax : Option Rat) (c2 : Ctx) (gr2 : GraphObj)
    (h : setYLimC g c gr ymin ymax = .ok (c2, gr2)) : ctxEvolves c c2 := by
  unfold setYLimC at h
  by_cases hg : limGuard ymin ymax
  · rw [if_pos hg] at h
    exact Except.noConfusion h
  · rw [if_neg hg] at h
    by_cases hm : g.isMPL
    · rw [if_pos hm] at h
      injection h with h2
      injection h2 with h3 h4
      rw [← h3]
      exact ctxEvolves_of_fields rfl rfl rfl rfl
    · rw [if_neg hm] at h
      dsimp only at h
      rcases ymin with _ | a <;> rcases ymax with _ | b <;>
        · injection h with h2
          injection h2 with h3 h4
          rw [← h3]
          exact ctxEvolves_refl c

/-! ## Plot-level invariant preservation -/

theorem onCtx_inv (p : Plot) (w : Bool)
    (f : Ctx → GraphObj → Except PyErr (Ctx × GraphObj × List Warn))
    (p2 : Plot)
    (hf : ∀ c gr c2 gr2 ws, f c gr = .ok (c2, gr2, ws) → ctxEvolves c c2)
    (hp : plotInv p) (h : onCtx p w f = .ok p2) : plotInv p2 := by
  cases w with
  | false =>
    have h2 : ((match f p.primary p.graph with
        | Except.error e => Except.error e
        | Except.ok (c2, g2, ws) =>
          Except.ok { Plot.withCtx p false c2 with
                graph := g2, warns := p.warns ++ ws }) :
        Except PyErr Plot) = Except.ok p2 := h
    cases hres : f p.primary p.graph with
    | error e =>
      rw [hres] at h2
      exact Except.noConfusion h2
    | ok r =>
      obtain ⟨c2, g2, ws⟩ := r
      rw [hres] at h2
      injection h2 with h3
      rw [← h3]
      have hev := hf _ _ _ _ _ hres
      exact ⟨hev.1.trans hp.1,
        fun hd => hev.2.2 (hp.2.1 (hev.2.1 ▸ hd)),
        fun c hc => hp.2.2 c hc⟩
  | true =>
    cases hc : p.child with
    | none =>
      have h2 : (Except.error .nameError : Except PyErr Plot) = .ok p2 := by
        unfold onCtx at h
        unfold Plot.ctxOf at h
        rw [if_pos rfl, hc] at h
        exact h
      exact Except.noConfusion h2
    | some c =>
      have h2 : ((match f c p.graph with
          | Except.error e => Except.error e
          | Except.ok (c2, g2, ws) =>
            Except.ok { Plot.withCtx p true c2 with
                  graph := g2, warns := p.warns ++ ws }) :
          Except PyErr Plot) = Except.ok p2 := by
        unfold onCtx at h
        unfold Plot.ctxOf at h
        rw [if_pos rfl, hc] at h
        exact h
      cases hres : f c p.graph with
      | error e =>
        rw [hres] at h2
        exact Except.noConfusion h2
      | ok r =>
        obtain ⟨c2, g2, ws⟩ := r
        rw [hres] at h2
        injection h2 with h3
        rw [← h3]
        have hev := hf _ _ _ _ _ hres
        have hcp := hp.2.2 c hc
        exact ⟨hp.1, hp.2.1, fun c3 hc3 => by
          have : c2 = c3 := by
            have : (some c2 : Option Ctx) = some c3 := hc3
            injection this
          rw [← this]
          exact ⟨hev.1.trans hcp.1, fun hd => hev.2.2 (hcp.2 (hev.2.1 ▸ hd))⟩⟩

theorem setGraphTitleC_evolves (g : Gl) (c : Ctx) (gr : GraphObj) (t : String) :
    ctxEvolves c (setGraphTitleC g c gr t).1 := by
  unfold setGraphTitleC
  by_cases hm : g.isMPL
  · rw [if_pos hm]
    exact ctxEvolves_of_fields rfl rfl rfl rfl
  · rw [if_neg hm]
    exact ctxEvolves_refl c

theorem setXLabelC_evolves (g : Gl) (c : Ctx) (gr : GraphObj) (t : String) :
    ctxEvolves c (setXLabelC g c gr t).1 := by
  unfold setXLabelC
  by_cases hm : g.isMPL
  · rw [if_pos hm]
    exact ctxEvolves_of_fields rfl rfl rfl rfl
  · rw [if_neg hm]
    exact ctxEvolves_refl c

theorem setYLabelC_evolves (g : Gl) (c : Ctx) (gr : GraphObj) (t : String) :
    ctxEvolves c (setYLabelC g c gr t).1 := by
  unfold setYLabelC
  by_cases hm : g.isMPL
  · rw [if_pos hm]
    exact ctxEvolves_of_fields rfl rfl rfl rfl
  · rw [if_neg hm]
    exact ctxEvolves_refl c

theorem setXTickValuesC_evolves (g : Gl) (c : Ctx) (gr : GraphObj)
    (vs : PyData) : ctxEvolves c (setXTickValuesC g c gr vs).1 := by
  unfold setXTickValuesC
  by_cases hm : g.isMPL
  · rw [if_pos hm]
    exact ctxEvolves_of_fields rfl rfl rfl rfl
  · rw [if_neg hm]
    exact ctxEvolves_refl c

theorem setXTickLabelsC_evolves (g : Gl) (c : Ctx) (gr : GraphObj)
    (ts : List String) : ctxEvolves c (setXTickLabelsC g c gr ts).1 := by
  unfold setXTickLabelsC
  by_cases hm : g.isMPL
  · rw [if_pos hm]
    exact ctxEvolves_of_fields rfl rfl rfl rfl
  · rw [if_neg hm]
    exact ctxEvolves_refl c

theorem setYTickSuffixC_evolves (g : Gl) (c : Ctx) (gr : GraphObj)
    (suf : String) : ctxEvolves c (setYTickSuffixC g c gr suf).1 := by
  unfold setYTickSuffixC
  by_cases hm : g.isMPL
  · rw [if_pos hm]
    exact ctxEvolves_of_fields rfl rfl rfl rfl
  · rw [if_neg hm]
    exact ctxEvolves_refl c

theorem setYTickLabelcolorC_evolves (g : Gl) (c : Ctx) (gr : GraphObj)
    (col : KWVal) : ctxEvolves c (setYTickLabelcolorC g c gr col).1 := by
  unfold setYTickLabelcolorC
  by_cases hm : g.isMPL
  · rw [if_pos hm]
    exact ctxEvolves_of_fields rfl rfl rfl rfl
  · rw [if_neg hm]
    exact ctxEvolves_refl c

theorem drawPrimary_spec (g : Gl) (p : Plot)
    (h : p.primary.alreadyDrawn = false) :
    (drawPrimary g p).primary.yaxisId = p.primary.yaxisId ∧
    (drawPrimary g p).primary.alreadyDrawn = true ∧
    (drawPrimary g p).child.map (fun c => c.yaxisId) =
      p.child.map (fun c => c.yaxisId) ∧
    (drawPrimary g p).child.map (fun c => c.alreadyDrawn) =
      p.child.map (fun _ => true) := by
  unfold drawPrimary
  rw [if_neg (by rw [h]; exact Bool.false_ne_true)]
  by_cases hm : g.isMPL
  · rw [if_pos hm]
    cases hc : p.child <;> exact ⟨rfl, rfl, rfl, rfl⟩
  · rw [if_neg hm]
    cases hc : p.child <;> exact ⟨rfl, rfl, rfl, rfl⟩

theorem drawPrimary_inv (g : Gl) (p : Plot) (hp : plotInv p) :
    plotInv (drawPrimary g p) := by
  by_cases h : p.primary.alreadyDrawn
  · rw [drawPrimary_of_drawn g p h]
    exact hp
  · have hs := drawPrimary_spec g p (Bool.eq_false_iff.mpr h)
    refine ⟨hs.1.trans hp.1, ?_, ?_⟩
    · intro hd
      rw [hs.2.1] at hd
      cases hd
    · intro c2 hc2
      cases hcp : p.child with
      | none =>
        have hy := hs.2.2.1
        rw [hc2, hcp] at hy
        exact Option.noConfusion hy
      | some c =>
        have hy := hs.2.2.1
        have hdn := hs.2.2.2
        rw [hc2, hcp] at hy hdn
        simp at hy hdn
        have hcc := hp.2.2 c hcp
        refine ⟨hy.trans hcc.1, ?_⟩
        intro hfalse
        rw [hdn] at hfalse
        cases hfalse

theorem drawChildSelf_spec (g : Gl) (p : Plot) :
    (drawChildSelf g p).primary.yaxisId = p.primary.yaxisId ∧
    (drawChildSelf g p).primary.alreadyDrawn = p.primary.alreadyDrawn ∧
    (drawChildSelf g p).primary.deferredTraces = p.primary.deferredTraces ∧
    (drawChildSelf g p).primary.drawCount = p.primary.drawCount ∧
    (drawChildSelf g p).child.map (fun c => c.yaxisId) =
      p.child.map (fun c => c.yaxisId) := by
  unfold drawChildSelf
  cases hc : p.child with
  | none =>
    refine ⟨rfl, rfl, rfl, rfl, ?_⟩
    dsimp only
    rw [hc]
  | some c =>
    by_cases hcd : c.alreadyDrawn
    · dsimp only
      rw [if_pos hcd]
      refine ⟨rfl, rfl, rfl, rfl, ?_⟩
      rw [hc]
    · dsimp only
      rw [if_neg hcd]
      by_cases hm : g.isMPL
      · rw [if_pos hm]
        exact ⟨rfl, rfl, rfl, rfl, rfl⟩
      · rw [if_neg hm]
        exact ⟨rfl, rfl, rfl, rfl, rfl⟩

theorem drawChildSelf_inv (g : Gl) (p : Plot) (hp : plotInv p) :
    plotInv (drawChildSelf g p) := by
  have hs := drawChildSelf_spec g p
  refine ⟨hs.1.trans hp.1, ?_, ?_⟩
  · intro hd
    rw [hs.2.1] at hd
    have hinv := hp.2.1 hd
    exact ctxDCInv_congr _ _ hs.2.2.1 hs.2.2.2.1 hinv
  · intro c2 hc2
    cases hcp : p.child with
    | none =>
      have hy := hs.2.2.2.2
      rw [hc2, hcp] at hy
      exact Option.noConfusion hy
    | some c =>
      have hy := hs.2.2.2.2
      rw [hc2, hcp] at hy
      simp at hy
      have hcc := hp.2.2 c hcp
      refine ⟨hy.trans hcc.1, ?_⟩
      intro hfalse
      have := drawChildSelf_child_drawn g p c2 hc2
      rw [this] at hfalse
      cases hfalse

theorem addYAxis_inv (g : Gl) (p : Plot) (w : Bool) (p2 : Plot)
    (hp : plotInv p) (h : addYAxis g p w = .ok p2) : plotInv p2 := by
  cases w with
  | true =>
    cases hc : p.child with
    | none =>
      have he : addYAxis g p true = Except.error PyErr.nameError := by
        unfold addYAxis
        simp [hc]
      rw [he] at h
      exact Except.noConfusion h
    | some c =>
      by_cases hy : c.yaxisId = Y2_AXIS_ID
      · have he : addYAxis g p true = Except.error
            (PyErr.runtimeError "This axis is already the second y-axis") := by
          unfold addYAxis
          simp [hc, hy]
        rw [he] at h
        exact Except.noConfusion h
      · have he : addYAxis g p true = Except.error
            (PyErr.runtimeError "Plot already has second y-axis") := by
          unfold addYAxis
          simp [hc, hy]
        rw [he] at h
        exact Except.noConfusion h
  | false =>
    by_cases hy : p.primary.yaxisId = Y2_AXIS_ID
    · have he : addYAxis g p false = Except.error
          (PyErr.runtimeError "This axis is already the second y-axis") := by
        unfold addYAxis
        simp [hy]
      rw [he] at h
      exact Except.noConfusion h
    · cases hc : p.child with
      | some c =>
        have he : addYAxis g p false = Except.error
            (PyErr.runtimeError "Plot already has second y-axis") := by
          unfold addYAxis
          simp [hc, hy]
        rw [he] at h
        exact Except.noConfusion h
      | none =>
        have he : addYAxis g p false = Except.ok { p with
            child := some { freshCtx with yaxisId := Y2_AXIS_ID },
            graph := if g.isMPL then p.graph
              else { p.graph with
                layout := p.graph.layout ++ [.baseStyle, .y2Style] } } := by
          unfold addYAxis
          simp [hc, hy]
        rw [he] at h
        injection h with h2
        rw [← h2]
        refine ⟨hp.1, hp.2.1, ?_⟩
        intro c2 hc2
        have h3 : (some { freshCtx with yaxisId := Y2_AXIS_ID } :
            Option Ctx) = some c2 := hc2
        injection h3 with h4
        rw [← h4]
        exact ⟨rfl, fun _ => ⟨List.chain'_nil,
          fun t ht => absurd ht (List.not_mem_nil t)⟩⟩

theorem runOp_inv (g : Gl) (p : Plot) (op : OpCall) (p2 : Plot)
    (hp : plotInv p) (h : runOp g p op = .ok p2) : plotInv p2 := by
  cases op with
  | addScatter w x y z kw =>
    simp only [runOp] at h
    refine onCtx_inv p w _ p2 ?_ hp h
    intro c gr c2 gr2 ws hres
    cases hA : addScatterC g c x y z kw with
    | error e => rw [hA] at hres; exact Except.noConfusion hres
    | ok r =>
      obtain ⟨c3, ws0⟩ := r
      rw [hA] at hres
      injection hres with h2
      injection h2 with h3 h4
      rw [← h3]
      exact addScatterC_evolves g c x y z kw c3 ws0 hA
  | addLine w x y z kw =>
    simp only [runOp] at h
    refine onCtx_inv p w _ p2 ?_ hp h
    intro c gr c2 gr2 ws hres
    cases hA : addLineC g c x y z kw with
    | error e => rw [hA] at hres; exact Except.noConfusion hres
    | ok r =>
      obtain ⟨c3, ws0⟩ := r
      rw [hA] at hres
      injection hres with h2
      injection h2 with h3 h4
      rw [← h3]
      exact addLineC_evolves g c x y z kw c3 ws0 hA
  | addBar w x y z kw =>
    simp only [runOp] at h
    refine onCtx_inv p w _ p2 ?_ hp h
    intro c gr c2 gr2 ws hres
    cases hA : addBarC g c x y z kw with
    | error e => rw [hA] at hres; exact Except.noConfusion hres
    | ok r =>
      obtain ⟨c3, ws0⟩ := r
      rw [hA] at hres
      injection hres with h2
      injection h2 with h3 h4
      rw [← h3]
      exact addBarC_evolves g c x y z kw c3 ws0 hA
  | addStep w x y z kw =>
    simp only [runOp] at h
    refine onCtx_inv p w _ p2 ?_ hp h
    intro c gr c2 gr2 ws hres
    cases hA : addStepC g c x y z kw with
    | error e => rw [hA] at hres; exact Except.noConfusion hres
    | ok r =>
      obtain ⟨c3, ws0⟩ := r
      rw [hA] at hres
      injection hres with h2
      injection h2 with h3 h4
      rw [← h3]
      exact addStepC_evolves g c x y z kw c3 ws0 hA
  | fillBetween w x y1 y2 color alpha z =>
    simp only [runOp] at h
    refine onCtx_inv p w _ p2 ?_ hp h
    intro c gr c2 gr2 ws hres
    injection hres with h2
    injection h2 with h3 h4
    rw [← h3]
    exact fillBetweenC_evolves g c x y1 y2 color alpha z
  | createVLine w x z kw =>
    simp only [runOp] at h
    refine onCtx_inv p w _ p2 ?_ hp h
    intro c gr c2 gr2 ws hres
    exact createVLineC_evolves g c gr x z kw c2 gr2 ws hres
  | createHLine w y z kw =>
    simp only [runOp] at h
    refine onCtx_inv p w _ p2 ?_ hp h
    intro c gr c2 gr2 ws hres
    exact createHLineC_evolves g c gr y z kw c2 gr2 ws hres
  | addLegendItem w kw =>
    simp only [runOp] at h
    refine onCtx_inv p w _ p2 ?_ hp h
    intro c gr c2 gr2 ws hres
    cases hA : addLegendItemC g c kw with
    | error e => rw [hA] at hres; exact Except.noConfusion hres
    | ok r =>
      obtain ⟨c3, ws0⟩ := r
      rw [hA] at hres
      injection hres with h2
      injection h2 with h3 h4
      rw [← h3]
      exact addLegendItemC_evolves g c kw c3 ws0 hA
  | legend w kw =>
    simp only [runOp] at h
    refine onCtx_inv p w _ p2 ?_ hp h
    intro c gr c2 gr2 ws hres
    cases hA : legendC g c gr kw with
    | error e => rw [hA] at hres; exact Except.noConfusion hres
    | ok r =>
      obtain ⟨c3, g3⟩ := r
      rw [hA] at hres
      injection hres with h2
      injection h2 with h3 h4
      rw [← h3]
      exact legendC_evolves g c gr kw c3 g3 hA
  | updateLegendText w item newText append =>
    simp only [runOp] at h
    refine onCtx_inv p w _ p2 ?_ hp h
    intro c gr c2 gr2 ws hres
    cases hA : updateLegendTextC g c gr item newText append with
    | error e => rw [hA] at hres; exact Except.noConfusion hres
    | ok r =>
      obtain ⟨c3, g3⟩ := r
      rw [hA] at hres
      injection hres with h2
      injection h2 with h3 h4
      rw [← h3]
      exact updateLegendTextC_evolves g c gr item newText append c3 g3 hA
  | addYAxis w => exact addYAxis_inv g p w p2 hp h
  | draw w =>
    have h2 : (if w ∧ p.child = none then
        (Except.error .nameError : Except PyErr Plot)
      else .ok (draw g p w)) = .ok p2 := h
    by_cases hcond : w ∧ p.child = none
    · rw [if_pos hcond] at h2
      exact Except.noConfusion h2
    · rw [if_neg hcond] at h2
      injection h2 with h3
      rw [← h3]
      cases w with
      | false => exact drawPrimary_inv g p hp
      | true => exact drawChildSelf_inv g p hp
  | setXLim w xmin xmax =>
    simp only [runOp] at h
    refine onCtx_inv p w _ p2 ?_ hp h
    intro c gr c2 gr2 ws hres
    cases hA : setXLimC g c gr xmin xmax with
    | error e => rw [hA] at hres; exact Except.noConfusion hres
    | ok r =>
      obtain ⟨c3, g3⟩ := r
      rw [hA] at hres
      injection hres with h2
      injection h2 with h3 h4
      rw [← h3]
      exact setXLimC_evolves g c gr xmin xmax c3 g3 hA
  | setYLim w ymin ymax =>
    simp only [runOp] at h
    refine onCtx_inv p w _ p2 ?_ hp h
    intro c gr c2 gr2 ws hres
    cases hA : setYLimC g c gr ymin ymax with
    | error e => rw [hA] at hres; exact Except.noConfusion hres
    | ok r =>
      obtain ⟨c3, g3⟩ := r
      rw [hA] at hres
      injection hres with h2
      injection h2 with h3 h4
      rw [← h3]
      exact setYLimC_evolves g c gr ymin ymax c3 g3 hA
  | setGraphTitle w t =>
    simp only [runOp] at h
    refine onCtx_inv p w _ p2 ?_ hp h
    intro c gr c2 gr2 ws hres
    injection hres with h2
    injection h2 with h3 h4
    rw [← h3]
    exact setGraphTitleC_evolves g c gr t
  | setXLabel w t =>
    simp only [runOp] at h
    refine onCtx_inv p w _ p2 ?_ hp h
    intro c gr c2 gr2 ws hres
    injection hres with h2
    injection h2 with h3 h4
    rw [← h3]
    exact setXLabelC_evolves g c gr t
  | setYLabel w t =>
    simp only [runOp] at h
    refine onCtx_inv p w _ p2 ?_ hp h
    intro c gr c2 gr2 ws hres
    injection hres with h2
    injection h2 with h3 h4
    rw [← h3]
    exact setYLabelC_evolves g c gr t
  | setXTickValues w vs =>
    simp only [runOp] at h
    refine onCtx_inv p w _ p2 ?_ hp h
    intro c gr c2 gr2 ws hres
    injection hres with h2
    injection h2 with h3 h4
    rw [← h3]
    exact setXTickValuesC_evolves g c gr vs
  | setXTickLabels w ts =>
    simp only [runOp] at h
    refine onCtx_inv p w _ p2 ?_ hp h
    intro c gr c2 gr2 ws hres
    injection hres with h2
    injection h2 with h3 h4
    rw [← h3]
    exact setXTickLabelsC_evolves g c gr ts
  | setYTickSuffix w suf =>
    simp only [runOp] at h
    refine onCtx_inv p w _ p2 ?_ hp h
    intro c gr c2 gr2 ws hres
    injection hres with h2
    injection h2 with h3 h4
    rw [← h3]
    exact setYTickSuffixC_evolves g c gr suf
  | setYTickLabelcolor w col =>
    simp only [runOp] at h
    refine onCtx_inv p w _ p2 ?_ hp h
    intro c gr c2 gr2 ws hres
    injection hres with h2
    injection h2 with h3 h4
    rw [← h3]
    exact setYTickLabelcolorC_evolves g c gr col

theorem runOps_inv (g : Gl) : ∀ (ops : List OpCall) (p p2 : Plot),
    plotInv p → runOps g p ops = .ok p2 → plotInv p2 := by
  intro ops
  induction ops with
  | nil =>
    intro p p2 hp h
    injection h with h2
    rw [← h2]
    exact hp
  | cons op rest ih =>
    intro p p2 hp h
    unfold runOps at h
    cases hop : runOp g p op with
    | error e => rw [hop] at h; exact Except.noConfusion h
    | ok q =>
      rw [hop] at h
      exact ih q p2 (runOp_inv g p op q hp hop) h

theorem plotInv_fresh (g : Gl) : plotInv (freshPlot g) := by
  refine ⟨rfl, fun _ => ⟨List.chain'_nil, fun t ht => absurd ht
    (List.not_mem_nil t)⟩, ?_⟩
  intro c hc
  exact Option.noConfusion hc

/-- The invariant of every reachable plot. -/
theorem reachable_inv (g : Gl) (ops : List OpCall) (p : Plot)
    (h : runOps g (freshPlot g) ops = .ok p) : plotInv p :=
  runOps_inv g ops (freshPlot g) p (plotInv_fresh g) h

/-! ## C9 (amended) and C7 -/

/-- C9 (amended): within each live (not yet drawn) Plot Context, the
draw-sequence values of the pending trace records, in list order, are
strictly increasing, for every reachable state.  The original claim's
extension to the combined list assembled by `draw()` fails: the
secondary context's counter restarts at zero (see the counterexample),
so strict increase and key-uniqueness hold per context only. -/
theorem c9_drawcount_amended (g : Gl) (ops : List OpCall) (p : Plot)
    (h : runOps g (freshPlot g) ops = .ok p) :
    (p.primary.alreadyDrawn = false →
      List.Chain' (· < ·)
        (p.primary.deferredTraces.map (fun t => t.drawCount))) ∧
    (∀ c, p.child = some c → c.alreadyDrawn = false →
      List.Chain' (· < ·) (c.deferredTraces.map (fun t => t.drawCount))) := by
  have hp := reachable_inv g ops p h
  exact ⟨fun hd => (hp.2.1 hd).1, fun c hc hd => ((hp.2.2 c hc).2 hd).1⟩

def c9WitOps : List OpCall :=
  [.addLine false [] [] 2 [], .addLine false [] [] 1 []]

def c9WitPlot : Plot :=
  match runOps glPlotly (freshPlot glPlotly) c9WitOps with
  | .ok p => p
  | .error _ => freshPlot glPlotly

/-- Witness for the amended C9 at two primary-context lines. -/
theorem c9_drawcount_witness :
    (c9WitPlot.primary.alreadyDrawn = false →
      List.Chain' (· < ·)
        (c9WitPlot.primary.deferredTraces.map (fun t => t.drawCount))) ∧
    (∀ c, c9WitPlot.child = some c → c.alreadyDrawn = false →
      List.Chain' (· < ·) (c.deferredTraces.map (fun t => t.drawCount))) :=
  c9_drawcount_amended glPlotly c9WitOps c9WitPlot (by rfl)

/-- C7: on every reachable plot that already owns a secondary-axis
child, `addYAxis()` raises whether called on the primary instance
(`Plot already has second y-axis`) or on the secondary instance itself
(`This axis is already the second y-axis`); a Plot Context therefore
never acquires a second secondary-axis child. -/
theorem c7_addYAxis_guard (g : Gl) (ops : List OpCall) (p : Plot) (c : Ctx)
    (h : runOps g (freshPlot g) ops = .ok p) (hc : p.child = some c) :
    addYAxis g p false =
      .error (.runtimeError "Plot already has second y-axis") ∧
    addYAxis g p true =
      .error (.runtimeError "This axis is already the second y-axis") := by
  have hp := reachable_inv g ops p h
  have h1 : p.primary.yaxisId = Y1_AXIS_ID := hp.1
  have hy2 : c.yaxisId = Y2_AXIS_ID := (hp.2.2 c hc).1
  have hy1 : ¬ p.primary.yaxisId = Y2_AXIS_ID := by
    rw [h1]
    decide
  constructor
  · unfold addYAxis
    simp [hc, hy1]
  · unfold addYAxis
    simp [hc, hy2]

def c7WitPlot : Plot :=
  match runOps glPlotly (freshPlot glPlotly) [.addYAxis false] with
  | .ok p => p
  | .error _ => freshPlot glPlotly

/-- Witness for C7: a plot with one secondary axis. -/
theorem c7_addYAxis_witness :
    addYAxis glPlotly c7WitPlot false =
      .error (.runtimeError "Plot already has second y-axis") ∧
    addYAxis glPlotly c7WitPlot true =
      .error (.runtimeError "This axis is already the second y-axis") :=
  c7_addYAxis_guard glPlotly [.addYAxis false] c7WitPlot
    { freshCtx with yaxisId := Y2_AXIS_ID } (by rfl) (by rfl)

/-! ## C1: the flushed draw order -/

/-- One trace-adding call appends exactly one record carrying the
current counter value and bumps the counter, leaving the drawn flag,
axes, and axis identity alone; the record's draw function is bound to
the primary axes when the context is the primary one. -/
def appendsOne (c c2 : Ctx) : Prop :=
  (∃ t : DeferredTrace, t.drawCount = c.drawCount ∧
    (c.yaxisId = Y1_AXIS_ID → boundToY2 t = false) ∧
    c2.deferredTraces = c.deferredTraces ++ [t]) ∧
  c2.drawCount = c.drawCount + 1 ∧ c2.alreadyDrawn = c.alreadyDrawn ∧
  c2.axes = c.axes ∧ c2.yaxisId = c.yaxisId

theorem boundToY2_mpl (k : MplKind) (c : Ctx) (hy : c.yaxisId = Y1_AXIS_ID) :
    boundToY2 ⟨.mpl k c.isY2, c.drawCount, [], [], 0, []⟩ = false := by
  show c.isY2 = false
  unfold Ctx.isY2
  rw [hy]
  rfl

theorem appendsOne_pushTrace (c : Ctx) (fn : DrawFn) (x y : PyData) (z : Int)
    (kw : KW) (hb : c.yaxisId = Y1_AXIS_ID → boundToY2 ⟨fn, c.drawCount, x, y,
      z, kw⟩ = false) : appendsOne c (pushTrace c fn x y z kw) :=
  ⟨⟨⟨fn, c.drawCount, x, y, z, kw⟩, rfl, hb, rfl⟩, rfl, rfl, rfl, rfl⟩

theorem appendsOne_convert (c c3 c2 : Ctx) (tn : List String)
    (h3 : c3 = { c with tracenames := tn }) (h : appendsOne c3 c2) :
    appendsOne c c2 := by
  obtain ⟨⟨t, ht1, ht2, ht3⟩, hn, hd, hx, hyx⟩ := h
  subst h3
  exact ⟨⟨t, ht1, ht2, ht3⟩, hn, hd, hx, hyx⟩

theorem addScatterC_appendsOne (g : Gl) (c : Ctx) (x y : PyData) (z : Int)
    (kw : KW) (c2 : Ctx) (ws : List Warn)
    (h : addScatterC g c x y z kw = .ok (c2, ws)) : appendsOne c c2 := by
  unfold addScatterC at h
  by_cases hm : g.isMPL
  · rw [if_pos hm] at h
    injection h with h2
    injection h2 with h3 h4
    rw [← h3]
    exact appendsOne_pushTrace c _ x y z kw (fun hy => by
      show c.isY2 = false
      unfold Ctx.isY2
      rw [hy]
      rfl)
  · rw [if_neg hm] at h
    cases hcv : convertKWArgs c .Scatter none kw with
    | error e => rw [hcv] at h; exact Except.noConfusion h
    | ok r =>
      obtain ⟨pkw, c3, ws0⟩ := r
      rw [hcv] at h
      injection h with h2
      injection h2 with h3 h4
      rw [← h3]
      obtain ⟨tn, htn⟩ := convertKWArgs_ctx c _ _ kw pkw c3 ws0 hcv
      exact appendsOne_convert c c3 _ tn htn
        (appendsOne_pushTrace c3 _ x y z _ (fun _ => rfl))

theorem addLineC_appendsOne (g : Gl) (c : Ctx) (x y : PyData) (z : Int)
    (kw : KW) (c2 : Ctx) (ws : List Warn)
    (h : addLineC g c x y z kw = .ok (c2, ws)) : appendsOne c c2 := by
  unfold addLineC at h
  by_cases hm : g.isMPL
  · rw [if_pos hm] at h
    injection h with h2
    injection h2 with h3 h4
    rw [← h3]
    exact appendsOne_pushTrace c _ x y z kw (fun hy => by
      show c.isY2 = false
      unfold Ctx.isY2
      rw [hy]
      rfl)
  · rw [if_neg hm] at h
    cases hcv : convertKWArgs c .Line none kw with
    | error e => rw [hcv] at h; exact Except.noConfusion h
    | ok r =>
      obtain ⟨pkw, c3, ws0⟩ := r
      rw [hcv] at h
      injection h with h2
      injection h2 with h3 h4
      rw [← h3]
      obtain ⟨tn, htn⟩ := convertKWArgs_ctx c _ _ kw pkw c3 ws0 hcv
      exact appendsOne_convert c c3 _ tn htn
        (appendsOne_pushTrace c3 _ x y z _ (fun _ => rfl))

theorem addStepC_appendsOne (g : Gl) (c : Ctx) (x y : PyData) (z : Int)
    (kw : KW) (c2 : Ctx) (ws : List Warn)
    (h : addStepC g c x y z kw = .ok (c2, ws)) : appendsOne c c2 := by
  unfold addStepC at h
  by_cases hm : g.isMPL
  · rw [if_pos hm] at h
    injection h with h2
    injection h2 with h3 h4
    rw [← h3]
    exact appendsOne_pushTrace c _ x y z kw (fun hy => by
      show c.isY2 = false
      unfold Ctx.isY2
      rw [hy]
      rfl)
  · rw [if_neg hm] at h
    cases hcv : convertKWArgs c .Step none kw with
    | error e => rw [hcv] at h; exact Except.noConfusion h
    | ok r =>
      obtain ⟨pkw, c3, ws0⟩ := r
      rw [hcv] at h
      injection h with h2
      injection h2 with h3 h4
      rw [← h3]
      obtain ⟨tn, htn⟩ := convertKWArgs_ctx c _ _ kw pkw c3 ws0 hcv
      exact appendsOne_convert c c3 _ tn htn
        (appendsOne_pushTrace c3 _ x y z _ (fun _ => rfl))

theorem addBarC_appendsOne (g : Gl) (c : Ctx) (x y : PyData) (z : Int)
    (kw : KW) (c2 : Ctx) (ws : List Warn)
    (h : addBarC g c x y z kw = .ok (c2, ws)) : appendsOne c c2 := by
  unfold addBarC at h
  by_cases hm : g.isMPL
  · rw [if_pos hm] at h
    injection h with h2
    injection h2 with h3 h4
    rw [← h3]
    exact appendsOne_pushTrace c _ x y z kw (fun hy => by
      show c.isY2 = false
      unfold Ctx.isY2
      rw [hy]
      rfl)
  · rw [if_neg hm] at h
    cases hcv : convertKWArgs c .Bar none kw with
    | error e => rw [hcv] at h; exact Except.noConfusion h
    | ok r =>
      obtain ⟨pkw, c3, ws0⟩ := r
      rw [hcv] at h
      dsimp only at h
      obtain ⟨tn, htn⟩ := convertKWArgs_ctx c _ _ kw pkw c3 ws0 hcv
      by_cases ha : dictGet kw "align" = some (.s "edge")
      · rw [if_pos ha] at h
        cases hr : x.reverse with
        | nil => rw [hr] at h; exact Except.noConfusion h
        | cons a rest =>
          cases rest with
          | nil => rw [hr] at h; exact Except.noConfusion h
          | cons b rest2 =>
            rw [hr] at h
            injection h with h2
            injection h2 with h3 h4
            rw [← h3]
            exact appendsOne_convert c c3 _ tn htn
              (appendsOne_pushTrace c3 _ _ y z _ (fun _ => rfl))
      · rw [if_neg ha] at h
        injection h with h2
        injection h2 with h3 h4
        rw [← h3]
        exact appendsOne_convert c c3 _ tn htn
          (appendsOne_pushTrace c3 _ x y z _ (fun _ => rfl))

theorem onCtx_false_ok (p : Plot)
    (f : Ctx → GraphObj → Except PyErr (Ctx × GraphObj × List Warn))
    (p2 : Plot) (h : onCtx p false f = .ok p2) :
    ∃ c2 g2 ws, f p.primary p.graph = .ok (c2, g2, ws) ∧
      p2 = { p with primary := c2, graph := g2, warns := p.warns ++ ws } := by
  have h2 : ((match f p.primary p.graph with
      | Except.error e => Except.error e
      | Except.ok (c2, g2, ws) =>
        Except.ok { Plot.withCtx p false c2 with
          graph := g2, warns := p.warns ++ ws }) :
      Except PyErr Plot) = Except.ok p2 := h
  cases hres : f p.primary p.graph with
  | error e =>
    rw [hres] at h2
    exact Except.noConfusion h2
  | ok r =>
    obtain ⟨c2, g2, ws⟩ := r
    rw [hres] at h2
    injection h2 with h3
    exact ⟨c2, g2, ws, rfl, by rw [← h3]; rfl⟩

/-- The state of a plot built from a fresh plot by trace-adding calls
on the primary context only. -/
def addsState (p : Plot) : Prop :=
  p.child = none ∧ p.primary.alreadyDrawn = false ∧
  p.graph.traces = [] ∧ p.primary.axes.artists = [] ∧
  p.primary.yaxisId = Y1_AXIS_ID ∧
  (∀ t ∈ p.primary.deferredTraces, boundToY2 t = false) ∧
  p.primary.deferredTraces.map (fun t => t.drawCount) =
    List.range p.primary.drawCount

theorem addsState_fresh (g : Gl) : addsState (freshPlot g) := by
  refine ⟨rfl, rfl, rfl, rfl, rfl, ?_, rfl⟩
  intro t ht
  cases ht

theorem addsState_of_appendsOne (p : Plot) (c2 : Ctx) (g2 : GraphObj)
    (ws : List Warn) (hs : addsState p) (hap : appendsOne p.primary c2)
    (hg : g2 = p.graph) :
    addsState { p with primary := c2, graph := g2, warns := p.warns ++ ws } := by
  obtain ⟨hchild, hdrawn, htr, hart, hy, hbound, hmap⟩ := hs
  obtain ⟨⟨t, ht1, ht2, ht3⟩, hn, hd, hx, hyx⟩ := hap
  refine ⟨hchild, ?_, ?_, ?_, ?_, ?_, ?_⟩
  · show c2.alreadyDrawn = false
    rw [hd, hdrawn]
  · show g2.traces = []
    rw [hg, htr]
  · show c2.axes.artists = []
    rw [hx, hart]
  · show c2.yaxisId = Y1_AXIS_ID
    rw [hyx, hy]
  · intro t2 ht2m
    show boundToY2 t2 = false
    rw [ht3] at ht2m
    rcases List.mem_append.mp ht2m with hmm | hmm
    · exact hbound t2 hmm
    · rw [List.mem_singleton] at hmm
      rw [hmm]
      exact ht2 hy
  · show c2.deferredTraces.map (fun t => t.drawCount) =
      List.range c2.drawCount
    rw [ht3, hn, List.map_append, hmap, List.range_succ, List.map_cons,
      List.map_nil, ht1]

theorem addsState_step (g : Gl) (p : Plot) (a : AddCall) (p2 : Plot)
    (hs : addsState p) (h : runOp g p a.toOp = .ok p2) : addsState p2 := by
  cases a with
  | scatter x y z kw =>
    simp only [AddCall.toOp, runOp] at h
    obtain ⟨c2, g2, ws, hres, hp2⟩ := onCtx_false_ok p _ p2 h
    cases hA : addScatterC g p.primary x y z kw with
    | error e => rw [hA] at hres; exact Except.noConfusion hres
    | ok r =>
      obtain ⟨c3, ws0⟩ := r
      rw [hA] at hres
      injection hres with h2
      injection h2 with h3 h4
      injection h4 with h5 h6
      rw [hp2, ← h3, ← h6]
      exact addsState_of_appendsOne p c3 g2 ws0 hs
        (addScatterC_appendsOne g p.primary x y z kw c3 ws0 hA) h5.symm
  | line x y z kw =>
    simp only [AddCall.toOp, runOp] at h
    obtain ⟨c2, g2, ws, hres, hp2⟩ := onCtx_false_ok p _ p2 h
    cases hA : addLineC g p.primary x y z kw with
    | error e => rw [hA] at hres; exact Except.noConfusion hres
    | ok r =>
      obtain ⟨c3, ws0⟩ := r
      rw [hA] at hres
      injection hres with h2
      injection h2 with h3 h4
      injection h4 with h5 h6
      rw [hp2, ← h3, ← h6]
      exact addsState_of_appendsOne p c3 g2 ws0 hs
        (addLineC_appendsOne g p.primary x y z kw c3 ws0 hA) h5.symm
  | bar x y z kw =>
    simp only [AddCall.toOp, runOp] at h
    obtain ⟨c2, g2, ws, hres, hp2⟩ := onCtx_false_ok p _ p2 h
    cases hA : addBarC g p.primary x y z kw with
    | error e => rw [hA] at hres; exact Except.noConfusion hres
    | ok r =>
      obtain ⟨c3, ws0⟩ := r
      rw [hA] at hres
      injection hres with h2
      injection h2 with h3 h4
      injection h4 with h5 h6
      rw [hp2, ← h3, ← h6]
      exact addsState_of_appendsOne p c3 g2 ws0 hs
        (addBarC_appendsOne g p.primary x y z kw c3 ws0 hA) h5.symm
  | step x y z kw =>
    simp only [AddCall.toOp, runOp] at h
    obtain ⟨c2, g2, ws, hres, hp2⟩ := onCtx_false_ok p _ p2 h
    cases hA : addStepC g p.primary x y z kw with
    | error e => rw [hA] at hres; exact Except.noConfusion hres
    | ok r =>
      obtain ⟨c3, ws0⟩ := r
      rw [hA] at hres
      injection hres with h2
      injection h2 with h3 h4
      injection h4 with h5 h6
      rw [hp2, ← h3, ← h6]
      exact addsState_of_appendsOne p c3 g2 ws0 hs
        (addStepC_appendsOne g p.primary x y z kw c3 ws0 hA) h5.symm

theorem runAdds_state (g : Gl) : ∀ (calls : List AddCall) (p p2 : Plot),
    addsState p → runAddCalls g p calls = .ok p2 → addsState p2 := by
  intro calls
  induction calls with
  | nil =>
    intro p p2 hs h
    injection h with h2
    rw [← h2]
    exact hs
  | cons a rest ih =>
    intro p p2 hs h
    unfold runAddCalls at h
    rw [List.map_cons] at h
    unfold runOps at h
    cases hop : runOp g p a.toOp with
    | error e => rw [hop] at h; exact Except.noConfusion h
    | ok q =>
      rw [hop] at h
      exact ih q p2 (addsState_step g p a q hs hop) h

theorem pairwise_strict_of_sorted_nodup (s : List DeferredTrace)
    (hs : s.Pairwise lexLe)
    (hnd : (s.map (fun t => t.drawCount)).Nodup) :
    s.Pairwise (fun a b => a.zorder = b.zorder → a.drawCount < b.drawCount) := by
  have hne : s.Pairwise (fun a b => a.drawCount ≠ b.drawCount) := by
    rw [List.Nodup, List.pairwise_map] at hnd
    exact hnd
  refine (hs.and hne).imp ?_
  intro a b hab hz
  rcases hab.1 with hlt | ⟨he, hdle⟩
  · rw [hz] at hlt
    exact absurd hlt (lt_irrefl _)
  · exact Nat.lt_of_le_of_ne hdle hab.2

/-- The C1 scenario: a line "A" at z-order 2, a bar "B" at 1, a
scatter "C" at 3, then `draw()`. -/
def c1ScenarioOps : List OpCall :=
  [.addLine false [.num 0] [.num 0] 2 [("label", .s "A")],
   .addBar false [.num 0] [.num 0] 1 [("label", .s "B")],
   .addScatter false [.num 0] [.num 0] 3 [("label", .s "C")],
   .draw false]

/-- C1: for every sequence of trace-adding calls on a single Plot
Context followed by `draw()`, the flushed order is the stable sort of
the pending records by (z-order, call sequence): it is a permutation
of the records, sorted under the lexicographic order, records of equal
z-order keep their call order (their draw counts — which run
0,1,2,... in call order — stay increasing), and it is exactly what
each backend receives (the plotly `add_trace` list, the matplotlib
artist list).  In particular, the line "A" (z=2), bar "B" (z=1),
scatter "C" (z=3) scenario flushes in the order B, A, C. -/
theorem c1_flush_order_stable_sort :
    (∀ (g : Gl) (calls : List AddCall) (p : Plot),
      runAddCalls g (freshPlot g) calls = .ok p →
      (drawFlushOrder p).Perm p.primary.deferredTraces ∧
      (drawFlushOrder p).Pairwise lexLe ∧
      (drawFlushOrder p).Pairwise
        (fun a b => a.zorder = b.zorder → a.drawCount < b.drawCount) ∧
      p.primary.deferredTraces.map (fun t => t.drawCount) =
        List.range p.primary.drawCount ∧
      (g.isMPL = false →
        (draw g p false).graph.traces = (drawFlushOrder p).map toGoTrace) ∧
      (g.isMPL = true →
        (draw g p false).primary.axes.artists =
          (drawFlushOrder p).map toArtist)) ∧
    (runOps glPlotly (freshPlot glPlotly) c1ScenarioOps).toOption.map
        (fun p => p.graph.traces.map (fun t => dictGet t.kwargs "name")) =
      some [some (.s "B"), some (.s "A"), some (.s "C")] := by
  constructor
  · intro g calls p h
    have hst := runAdds_state g calls (freshPlot g) p (addsState_fresh g) h
    obtain ⟨hchild, hdrawn, htr, hart, hy, hbound, hmap⟩ := hst
    have hflush : drawFlushOrder p = sortTraces p.primary.deferredTraces := by
      unfold drawFlushOrder
      rw [hchild]
      show sortTraces (p.primary.deferredTraces ++ []) = _
      rw [List.append_nil]
    have hperm : (drawFlushOrder p).Perm p.primary.deferredTraces := by
      rw [hflush]
      exact List.perm_insertionSort lexLe _
    have hsorted : (drawFlushOrder p).Pairwise lexLe := by
      rw [hflush]
      exact List.sorted_insertionSort lexLe _
    have hnd : ((drawFlushOrder p).map (fun t => t.drawCount)).Nodup := by
      have hp2 : (drawFlushOrder p).map (fun t => t.drawCount) =
          [] ++ (drawFlushOrder p).map (fun t => t.drawCount) := by
        rw [List.nil_append]
      have hpm := hperm.map (fun t => t.drawCount)
      rw [hmap] at hpm
      exact hpm.nodup_iff.mpr (List.nodup_range _)
    refine ⟨hperm, hsorted,
      pairwise_strict_of_sorted_nodup _ hsorted hnd, hmap, ?_, ?_⟩
    · intro hmpl
      show (drawPrimary g p).graph.traces = _
      unfold drawPrimary
      rw [if_neg (by rw [hdrawn]; exact Bool.false_ne_true)]
      rw [if_neg (by rw [hmpl]; exact Bool.false_ne_true)]
      show p.graph.traces ++ (drawFlushOrder p).map toGoTrace = _
      rw [htr, List.nil_append]
    · intro hmpl
      show (drawPrimary g p).primary.axes.artists = _
      unfold drawPrimary
      rw [if_neg (by rw [hdrawn]; exact Bool.false_ne_true)]
      rw [if_pos hmpl]
      show (flushInto p.primary.axes (drawFlushOrder p) false).artists = _
      unfold flushInto
      show p.primary.axes.artists ++
        ((drawFlushOrder p).filter (fun t => boundToY2 t = false)).map
          toArtist = _
      have hfil : (drawFlushOrder p).filter
          (fun t => decide (boundToY2 t = false)) = drawFlushOrder p := by
        rw [List.filter_eq_self]
        intro t ht
        have hb := hbound t (hperm.mem_iff.mp ht)
        simp [hb]
      rw [hart, List.nil_append, hfil]
  · rfl

def c1WitCalls : List AddCall :=
  [.line [.num 0] [.num 0] 2 [("label", .s "A")],
   .bar [.num 0] [.num 0] 1 [("label", .s "B")],
   .scatter [.num 0] [.num 0] 3 [("label", .s "C")]]

def c1WitPlot : Plot :=
  match runAddCalls glPlotly (freshPlot glPlotly) c1WitCalls with
  | .ok p => p
  | .error _ => freshPlot glPlotly

/-- Witness for C1 at the scenario's three trace-adding calls. -/
theorem c1_flush_order_witness :
    (drawFlushOrder c1WitPlot).Perm c1WitPlot.primary.deferredTraces ∧
    (drawFlushOrder c1WitPlot).Pairwise lexLe ∧
    (drawFlushOrder c1WitPlot).Pairwise
      (fun a b => a.zorder = b.zorder → a.drawCount < b.drawCount) ∧
    c1WitPlot.primary.deferredTraces.map (fun t => t.drawCount) =
      List.range c1WitPlot.primary.drawCount ∧
    (glPlotly.isMPL = false →
      (draw glPlotly c1WitPlot false).graph.traces =
        (drawFlushOrder c1WitPlot).map toGoTrace) ∧
    (glPlotly.isMPL = true →
      (draw glPlotly c1WitPlot false).primary.axes.artists =
        (drawFlushOrder c1WitPlot).map toArtist) :=
  c1_flush_order_stable_sort.1 glPlotly c1WitCalls c1WitPlot (by rfl)

/-! ## C8 (amended): unknown names warn and drop, unknown linestyle raises -/

theorem legendScan_found (key item nl : String) :
    ∀ (pre : List DeferredTrace) (t : DeferredTrace)
      (post : List DeferredTrace),
    (∀ t2 ∈ pre, ∃ v, dictGet t2.kwargs key = some v ∧ v ≠ .s item) →
    dictGet t.kwargs key = some (.s item) →
    legendScan key item nl (pre ++ t :: post) =
      .ok (pre ++ { t with kwargs := dictSet t.kwargs key (.s nl) } :: post) := by
  intro pre
  induction pre with
  | nil =>
    intro t post hpre ht
    unfold legendScan
    rw [List.nil_append]
    dsimp only
    rw [ht]
    dsimp only
    rw [if_pos rfl]
    rfl
  | cons q pre2 ih =>
    intro t post hpre ht
    obtain ⟨v, hv1, hv2⟩ := hpre q (List.mem_cons_self _ _)
    show legendScan key item nl (q :: (pre2 ++ t :: post)) = _
    unfold legendScan
    rw [hv1]
    dsimp only
    rw [if_neg hv2]
    rw [ih t post (fun t2 ht2 => hpre t2 (List.mem_cons_of_mem _ ht2)) ht]
    rfl

theorem legendScan_none (key item nl : String) :
    ∀ ts : List DeferredTrace,
    (∀ t2 ∈ ts, ∃ v, dictGet t2.kwargs key = some v ∧ v ≠ .s item) →
    legendScan key item nl ts = .error (.valueError (legendErrMsg item)) := by
  intro ts
  induction ts with
  | nil => intro _; rfl
  | cons q rest ih =>
    intro hts
    obtain ⟨v, hv1, hv2⟩ := hts q (List.mem_cons_self _ _)
    unfold legendScan
    rw [hv1]
    dsimp only
    rw [if_neg hv2]
    rw [ih (fun t2 ht2 => hts t2 (List.mem_cons_of_mem _ ht2))]

theorem replaceFirst_decomp (b : String) :
    ∀ (pre : List String) (a : String) (post : List String), a ∉ pre →
    replaceFirst (pre ++ a :: post) a b = pre ++ b :: post := by
  intro pre
  induction pre with
  | nil =>
    intro a post _
    show replaceFirst (a :: post) a b = _
    unfold replaceFirst
    rw [if_pos rfl]
    rfl
  | cons x pre2 ih =>
    intro a post hnm
    show replaceFirst (x :: (pre2 ++ a :: post)) a b = _
    unfold replaceFirst
    rw [if_neg (fun he => hnm (by rw [← he]; exact List.mem_cons_self x pre2))]
    rw [ih a post (fun hm => hnm (List.mem_cons_of_mem _ hm))]
    rfl

/-- C5 (amended): `updateLegendText(item, text, append)` rewrites the
first matching legend entry to exactly `item ++ text` (append) or
`text` (replace), pre-render and post-render, and a failed lookup
raises the `ValueError` whose message contains the offending name —
with one proviso forced by the counterexample: on the pre-render path
every pending record that the scan visits must carry the label/name
keyword, otherwise `trace._kwargs[label]` raises a bare `KeyError`
first. -/
theorem c5_updateLegendText_amended :
    (∀ (g : Gl) (c : Ctx) (gr : GraphObj) (item txt : String) (app : Bool)
      (pre : List DeferredTrace) (t : DeferredTrace)
      (post : List DeferredTrace),
      c.alreadyDrawn = false →
      c.deferredTraces = pre ++ t :: post →
      (∀ t2 ∈ pre, ∃ v,
        dictGet t2.kwargs (if g.isMPL then "label" else "name") = some v ∧
        v ≠ .s item) →
      dictGet t.kwargs (if g.isMPL then "label" else "name") =
        some (.s item) →
      updateLegendTextC g c gr item txt app =
        .ok ({ c with deferredTraces := pre ++
          { t with kwargs := (dictSet t.kwargs
            (if g.isMPL then "label" else "name")
            (.s ((if app then item else "") ++ txt))) } :: post }, gr) ∧
      dictGet (dictSet t.kwargs (if g.isMPL then "label" else "name")
          (.s ((if app then item else "") ++ txt)))
          (if g.isMPL then "label" else "name") =
        some (.s ((if app then item else "") ++ txt))) ∧
    (∀ (g : Gl) (c : Ctx) (gr : GraphObj) (item txt : String) (app : Bool),
      c.alreadyDrawn = false →
      (∀ t2 ∈ c.deferredTraces, ∃ v,
        dictGet t2.kwargs (if g.isMPL then "label" else "name") = some v ∧
        v ≠ .s item) →
      updateLegendTextC g c gr item txt app =
        .error (.valueError (legendErrMsg item)) ∧
      ∃ a b, legendErrMsg item = a ++ (item ++ b)) ∧
    (∀ (g : Gl) (c : Ctx) (gr : GraphObj) (item txt : String) (app : Bool)
      (pre post : List String),
      c.alreadyDrawn = true → g.isMPL = true →
      c.labelsList = pre ++ item :: post → item ∉ pre →
      updateLegendTextC g c gr item txt app =
        .ok ({ c with labelsList :=
          pre ++ ((if app then item else "") ++ txt) :: post }, gr)) ∧
    (∀ (g : Gl) (c : Ctx) (gr : GraphObj) (item txt : String) (app : Bool),
      c.alreadyDrawn = true → g.isMPL = true → item ∉ c.labelsList →
      updateLegendTextC g c gr item txt app =
        .error (.valueError (legendErrMsg item))) ∧
    (∀ (g : Gl) (c : Ctx) (gr : GraphObj) (item txt : String) (app : Bool)
      (pre post : List String),
      c.alreadyDrawn = true → g.isMPL = false →
      c.tracenames = pre ++ item :: post → item ∉ pre →
      updateLegendTextC g c gr item txt app =
        .ok ({ c with tracenames :=
          pre ++ ((if app then item else "") ++ txt) :: post },
          { gr with traces := gr.traces.map (fun t =>
            if dictGet t.kwargs "name" = some (.s item) then
              { t with kwargs := (dictSet t.kwargs "name"
                (.s ((if app then item else "") ++ txt))) }
            else t) })) ∧
    (∀ (g : Gl) (c : Ctx) (gr : GraphObj) (item txt : String) (app : Bool),
      c.alreadyDrawn = true → g.isMPL = false → item ∉ c.tracenames →
      updateLegendTextC g c gr item txt app =
        .error (.valueError (legendErrMsg item))) := by
  refine ⟨?_, ?_, ?_, ?_, ?_, ?_⟩
  · intro g c gr item txt app pre t post hd hdec hpre ht
    constructor
    · unfold updateLegendTextC
      rw [if_neg (by rw [hd]; exact Bool.false_ne_true)]
      dsimp only
      rw [hdec, legendScan_found _ item _ pre t post hpre ht]
    · exact dictGet_dictSet_self t.kwargs _ _
  · intro g c gr item txt app hd hall
    constructor
    · unfold updateLegendTextC
      rw [if_neg (by rw [hd]; exact Bool.false_ne_true)]
      dsimp only
      rw [legendScan_none _ item _ c.deferredTraces hall]
    · exact ⟨"Legend entry ",
        " does not exist. Check for typos and make sure you used the right plotter instance",
        by rw [legendErrMsg, String.append_assoc]⟩
  · intro g c gr item txt app pre post hd hm hdec hnm
    have hmemb : item ∈ c.labelsList := by
      rw [hdec]
      exact List.mem_append_right pre (List.mem_cons_self _ _)
    unfold updateLegendTextC
    rw [if_pos hd, if_pos hm, if_pos hmemb]
    rw [hdec, replaceFirst_decomp _ pre item post hnm]
  · intro g c gr item txt app hd hm hnm
    unfold updateLegendTextC
    rw [if_pos hd, if_pos hm, if_neg hnm]
  · intro g c gr item txt app pre post hd hm hdec hnm
    have hmemb : item ∈ c.tracenames := by
      rw [hdec]
      exact List.mem_append_right pre (List.mem_cons_self _ _)
    unfold updateLegendTextC
    rw [if_pos hd]
    rw [if_neg (by rw [hm]; exact Bool.false_ne_true)]
    rw [if_pos hmemb]
    rw [hdec, replaceFirst_decomp _ pre item post hnm]
  · intro g c gr item txt app hd hm hnm
    unfold updateLegendTextC
    rw [if_pos hd]
    rw [if_neg (by rw [hm]; exact Bool.false_ne_true)]
    rw [if_neg hnm]

def c5WitPlot : Plot :=
  match runOps glMpl (freshPlot glMpl)
      [.addLine false [] [] 2 [("label", .s "X")]] with
  | .ok p => p
  | .error _ => freshPlot glMpl

/-- Witness for the amended C5: pre-render append on an existing
entry `X` in the static backend. -/
theorem c5_updateLegendText_witness :
    updateLegendTextC glMpl c5WitPlot.primary c5WitPlot.graph "X" "t" true =
      .ok ({ c5WitPlot.primary with deferredTraces := [] ++
        { (⟨.mpl .plot false, 0, [], [], 2, [("label", .s "X")]⟩ :
            DeferredTrace) with
          kwargs := (dictSet [("label", .s "X")] "label"
            (.s ((if true then "X" else "") ++ "t"))) } :: [] },
        c5WitPlot.graph) ∧
    dictGet (dictSet (⟨.mpl .plot false, 0, [], [], 2,
        [("label", .s "X")]⟩ : DeferredTrace).kwargs
        (if glMpl.isMPL then "label" else "name")
        (.s ((if true then "X" else "") ++ "t")))
        (if glMpl.isMPL then "label" else "name") =
      some (.s ((if true then "X" else "") ++ "t")) :=
  c5_updateLegendText_amended.1 glMpl c5WitPlot.primary c5WitPlot.graph
    "X" "t" true [] ⟨.mpl .plot false, 0, [], [], 2, [("label", .s "X")]⟩ []
    (by rfl) (by rfl)
    (fun t2 ht2 => absurd ht2 (List.not_mem_nil t2))
    (by rfl)

/-! ## C4 (amended): reference-line legend proxies -/

/-- C4 (amended): in the interactive backend,
`createVLine(x, label, linestyle)` with any *dashed/dotted* style
produces exactly one shape plus exactly one proxy legend trace at the
extremal z-order 10000 in the `extra` legend group — and that proxy
uses a *line-style* glyph (`mode='lines'`, no marker symbol), contrary
to the original claim; the *marker-style* glyph (`line_ns_open`) is
what *solid* reference lines get (they also require a color). -/
theorem c4_vline_amended :
    (∀ (c : Ctx) (gr : GraphObj) (x : PyFloat) (lbl sty : String),
      sty ∈ (["--", "-.", ":", "dashed", "dashdot", "dotted"] :
        List String) →
      ∃ (t : DeferredTrace) (sh : Shape),
        createVLineC glPlotly c gr x 1
          [("label", .s lbl), ("linestyle", .s sty)] =
          .ok ({ c with
                  tracenames := c.tracenames ++ [lbl]
                  deferredTraces := c.deferredTraces ++ [t]
                  drawCount := c.drawCount + 1 },
               { gr with shapes := gr.shapes ++ [sh] }, []) ∧
        dictGet t.kwargs "mode" = some (.s "lines") ∧
        dictGet t.kwargs "marker_symbol" = none ∧
        dictGet t.kwargs "legendgroup" = some (.s "extra") ∧
        dictGet t.kwargs "name" = some (.s lbl) ∧
        t.zorder = 10000) ∧
    (∀ (c : Ctx) (gr : GraphObj) (x : PyFloat) (lbl col sty : String),
      sty ∈ (["-", "solid"] : List String) →
      ∃ (t : DeferredTrace) (sh : Shape),
        createVLineC glPlotly c gr x 1
          [("label", .s lbl), ("linestyle", .s sty), ("color", .s col)] =
          .ok ({ c with
                  tracenames := c.tracenames ++ [lbl]
                  deferredTraces := c.deferredTraces ++ [t]
                  drawCount := c.drawCount + 1 },
               { gr with shapes := gr.shapes ++ [sh] }, []) ∧
        dictGet t.kwargs "mode" = some (.s "markers") ∧
        dictGet t.kwargs "marker_symbol" = some (.s "line_ns_open") ∧
        dictGet t.kwargs "legendgroup" = some (.s "extra") ∧
        dictGet t.kwargs "name" = some (.s lbl) ∧
        t.zorder = 10000) := by
  constructor
  · intro c gr x lbl sty hsty
    fin_cases hsty <;> exact ⟨_, _, rfl, rfl, rfl, rfl, rfl, rfl⟩
  · intro c gr x lbl col sty hsty
    fin_cases hsty <;> exact ⟨_, _, rfl, rfl, rfl, rfl, rfl, rfl⟩

/-- Witness for the amended C4 at the scenario inputs
(`x=0`, `label='ref'`, `linestyle='dashed'`). -/
theorem c4_vline_witness :
    ∃ (t : DeferredTrace) (sh : Shape),
      createVLineC glPlotly freshCtx (freshPlot glPlotly).graph (.num 0) 1
        [("label", .s "ref"), ("linestyle", .s "dashed")] =
        .ok ({ freshCtx with
                tracenames := freshCtx.tracenames ++ ["ref"]
                deferredTraces := freshCtx.deferredTraces ++ [t]
                drawCount := freshCtx.drawCount + 1 },
             { (freshPlot glPlotly).graph with
               shapes := (freshPlot glPlotly).graph.shapes ++ [sh] }, []) ∧
      dictGet t.kwargs "mode" = some (.s "lines") ∧
      dictGet t.kwargs "marker_symbol" = none ∧
      dictGet t.kwargs "legendgroup" = some (.s "extra") ∧
      dictGet t.kwargs "name" = some (.s "ref") ∧
      t.zorder = 10000 :=
  c4_vline_amended.1 freshCtx (freshPlot glPlotly).graph (.num 0) "ref"
    "dashed" (by decide)

/-! ## C3 (amended): fillBetween record pairs -/

/-- Strict version of the draw sort order. -/
def lexLt (a b : DeferredTrace) : Prop :=
  a.zorder < b.zorder ∨ (a.zorder = b.zorder ∧ a.drawCount < b.drawCount)

theorem lexLt_irrefl (a : DeferredTrace) : ¬ lexLt a a := by
  intro h
  rcases h with h | ⟨_, h⟩
  · exact lt_irrefl _ h
  · exact lt_irrefl _ h

theorem lexLt_asymm (a b : DeferredTrace) (h1 : lexLt a b) (h2 : lexLt b a) :
    False := by
  rcases h1 with h1 | ⟨e1, d1⟩ <;> rcases h2 with h2 | ⟨e2, d2⟩
  · exact lt_asymm h1 h2
  · rw [e2] at h1; exact lt_irrefl _ h1
  · rw [e1] at h2; exact lt_irrefl _ h2
  · exact lt_asymm d1 d2

theorem pairwise_lexLt_of_sorted_nodup (s : List DeferredTrace)
    (hs : s.Pairwise lexLe)
    (hnd : (s.map (fun t => t.drawCount)).Nodup) : s.Pairwise lexLt := by
  have hne : s.Pairwise (fun a b => a.drawCount ≠ b.drawCount) := by
    rw [List.Nodup, List.pairwise_map] at hnd
    exact hnd
  refine (hs.and hne).imp ?_
  intro a b hab
  rcases hab.1 with hlt | ⟨he, hdle⟩
  · exact Or.inl hlt
  · exact Or.inr ⟨he, Nat.lt_of_le_of_ne hdle hab.2⟩

/-- In a strictly sorted list, two members with nothing strictly
between them are adjacent. -/
theorem adjacent_of_sorted :
    ∀ (s : List DeferredTrace) (t1 t2 : DeferredTrace),
    s.Pairwise lexLt → t1 ∈ s → t2 ∈ s → lexLt t1 t2 →
    (∀ r ∈ s, ¬ (lexLt t1 r ∧ lexLt r t2)) →
    ∃ u v, s = u ++ t1 :: t2 :: v := by
  intro s
  induction s with
  | nil =>
    intro t1 t2 _ h1 _ _ _
    exact absurd h1 (List.not_mem_nil t1)
  | cons a tl ih =>
    intro t1 t2 hp h1 h2 h12 hmid
    have ha : ∀ b ∈ tl, lexLt a b :=
      fun b hb => List.rel_of_pairwise_cons hp hb
    have hp2 : tl.Pairwise lexLt := (List.pairwise_cons.mp hp).2
    rcases List.mem_cons.mp h1 with he1 | hm1
    · subst he1
      rcases List.mem_cons.mp h2 with he2 | hm2
      · rw [← he2] at h12
        exact absurd h12 (lexLt_irrefl t2)
      · cases tl with
        | nil => exact absurd hm2 (List.not_mem_nil t2)
        | cons b tl2 =>
          by_cases hb : b = t2
          · subst hb
            exact ⟨[], tl2, rfl⟩
          · have ht2tl2 : t2 ∈ tl2 := by
              rcases List.mem_cons.mp hm2 with he | hmm
              · exact absurd he.symm hb
              · exact hmm
            have hab : lexLt t1 b := ha b (List.mem_cons_self _ _)
            have hbt2 : lexLt b t2 :=
              List.rel_of_pairwise_cons hp2 ht2tl2
            exact absurd ⟨hab, hbt2⟩
              (hmid b (List.mem_cons_of_mem _ (List.mem_cons_self _ _)))
    · rcases List.mem_cons.mp h2 with he2 | hm2
      · subst he2
        exact absurd (ha t1 hm1) (fun hat1 => lexLt_asymm _ _ h12 hat1)
      · obtain ⟨u, v, he⟩ := ih t1 t2 hp2 hm1 hm2 h12
          (fun r hr => hmid r (List.mem_cons_of_mem _ hr))
        exact ⟨a :: u, v, by rw [List.cons_append, he]⟩

/-- C3 (amended): in the interactive backend one `fillBetween` call
appends exactly two pending records with consecutive draw counts (the
transparent boundary line, then the `tonexty` fill), and on a plot
*without* a secondary-axis child they remain adjacent after the
(z-order, draw-sequence) sort that `draw()` performs; in the static
backend the call appends exactly one record invoking the
`fill_between` primitive.  With a secondary axis the adjacency can
fail (see the counterexample): the child context's draw counters
restart at zero, so a child record can carry the same sort key and be
stably sorted between the two. -/
theorem c3_fillBetween_amended :
    (∀ (ops : List OpCall) (p p2 : Plot) (x y1 y2 : PyData) (color : String)
      (alpha : Rat) (z : Int),
      runOps glPlotly (freshPlot glPlotly) ops = .ok p →
      p.child = none → p.primary.alreadyDrawn = false →
      runOp glPlotly p (.fillBetween false x y1 y2 color alpha z) = .ok p2 →
      ∃ t1 t2 : DeferredTrace,
        p2.primary.deferredTraces = p.primary.deferredTraces ++ [t1, t2] ∧
        t1.drawCount = p.primary.drawCount ∧
        t2.drawCount = p.primary.drawCount + 1 ∧
        t1.zorder = z ∧ t2.zorder = z ∧
        dictGet t1.kwargs "line_color" = some (.s "rgba(0,0,0,0)") ∧
        dictGet t2.kwargs "fill" = some (.s "tonexty") ∧
        ∃ u v, drawFlushOrder p2 = u ++ t1 :: t2 :: v) ∧
    (∀ (c : Ctx) (x y1 y2 : PyData) (color : String) (alpha : Rat) (z : Int),
      (fillBetweenC glMpl c x y1 y2 color alpha z).deferredTraces =
        c.deferredTraces ++
          [⟨.mpl .fillBetween c.isY2, c.drawCount, x, y1, z,
            [("y2", .data y2), ("color", .s color), ("alpha", .num alpha)]⟩] ∧
      (fillBetweenC glMpl c x y1 y2 color alpha z).drawCount =
        c.drawCount + 1) := by
  constructor
  · intro ops p p2 x y1 y2 color alpha z hreach hchild hdrawn hfb
    have hinvp : plotInv p := reachable_inv glPlotly ops p hreach
    have hinvp2 : plotInv p2 := runOp_inv glPlotly p _ p2 hinvp hfb
    simp only [runOp] at hfb
    obtain ⟨c2, g2, ws, hres, hp2⟩ := onCtx_false_ok p _ p2 hfb
    injection hres with h2
    injection h2 with h3 h4
    injection h4 with h5 h6
    refine ⟨⟨.goScatter, p.primary.drawCount, x, y1, z,
        [("line_color", .s "rgba(0,0,0,0)"), ("showlegend", .b false),
         ("yaxis", .s p.primary.yaxisId)]⟩,
      ⟨.goScatter, p.primary.drawCount + 1, x, y2, z,
        [("mode", .s "none"), ("fill", .s "tonexty"),
         ("fillcolor", .fillcolorOf color alpha), ("showlegend", .b false),
         ("yaxis", .s p.primary.yaxisId)]⟩, ?_, rfl, rfl, rfl, rfl, rfl, rfl,
      ?_⟩
    · show p2.primary.deferredTraces = _
      rw [hp2]
      show c2.deferredTraces = _
      rw [← h3]
      show (p.primary.deferredTraces ++ [_]) ++ [_] = _
      rw [List.append_assoc]
      rfl
    · -- adjacency in the childless flush order
      have hd2 : p2.primary.alreadyDrawn = false := by
        rw [hp2]
        show c2.alreadyDrawn = false
        rw [← h3]
        exact hdrawn
      have hdc : ctxDCInv p2.primary := hinvp2.2.1 hd2
      have hchild2 : p2.child = none := by
        rw [hp2]
        exact hchild
      have hflush : drawFlushOrder p2 = sortTraces p2.primary.deferredTraces := by
        unfold drawFlushOrder
        rw [hchild2]
        show sortTraces (p2.primary.deferredTraces ++ []) = _
        rw [List.append_nil]
      have hsorted : (drawFlushOrder p2).Pairwise lexLe := by
        rw [hflush]
        exact List.sorted_insertionSort lexLe _
      have hperm : (drawFlushOrder p2).Perm p2.primary.deferredTraces := by
        rw [hflush]
        exact List.perm_insertionSort lexLe _
      have hndp : (p2.primary.deferredTraces.map
          (fun t => t.drawCount)).Nodup := by
        have hpw : (p2.primary.deferredTraces.map
            (fun t => t.drawCount)).Pairwise (· < ·) :=
          List.chain'_iff_pairwise.mp hdc.1
        exact hpw.imp ne_of_lt
      have hnd : ((drawFlushOrder p2).map (fun t => t.drawCount)).Nodup :=
        ((hperm.map (fun t => t.drawCount)).nodup_iff).mpr hndp
      have hstrict : (drawFlushOrder p2).Pairwise lexLt :=
        pairwise_lexLt_of_sorted_nodup _ hsorted hnd
      have hdef : p2.primary.deferredTraces =
          p.primary.deferredTraces ++
            [⟨.goScatter, p.primary.drawCount, x, y1, z,
              [("line_color", .s "rgba(0,0,0,0)"), ("showlegend", .b false),
               ("yaxis", .s p.primary.yaxisId)]⟩,
             ⟨.goScatter, p.primary.drawCount + 1, x, y2, z,
              [("mode", .s "none"), ("fill", .s "tonexty"),
               ("fillcolor", .fillcolorOf color alpha),
               ("showlegend", .b false),
               ("yaxis", .s p.primary.yaxisId)]⟩] := by
        rw [hp2]
        show c2.deferredTraces = _
        rw [← h3]
        show (p.primary.deferredTraces ++ [_]) ++ [_] = _
        rw [List.append_assoc]
        rfl
      have hm1 : (⟨.goScatter, p.primary.drawCount, x, y1, z,
          [("line_color", .s "rgba(0,0,0,0)"), ("showlegend", .b false),
           ("yaxis", .s p.primary.yaxisId)]⟩ : DeferredTrace) ∈
          drawFlushOrder p2 := by
        rw [hperm.mem_iff, hdef]
        exact List.mem_append_right _ (List.mem_cons_self _ _)
      have hm2 : (⟨.goScatter, p.primary.drawCount + 1, x, y2, z,
          [("mode", .s "none"), ("fill", .s "tonexty"),
           ("fillcolor", .fillcolorOf color alpha), ("showlegend", .b false),
           ("yaxis", .s p.primary.yaxisId)]⟩ : DeferredTrace) ∈
          drawFlushOrder p2 := by
        rw [hperm.mem_iff, hdef]
        exact List.mem_append_right _
          (List.mem_cons_of_mem _ (List.mem_cons_self _ _))
      refine adjacent_of_sorted _ _ _ hstrict hm1 hm2
        (Or.inr ⟨rfl, Nat.lt_succ_self _⟩) ?_
      intro r hr hcontra
      obtain ⟨hc1, hc2⟩ := hcontra
      rcases hc1 with hlt1 | ⟨he1, hd1⟩ <;>
        rcases hc2 with hlt2 | ⟨he2, hd2v⟩
      · exact lt_asymm hlt1 hlt2
      · rw [he2] at hlt1
        exact lt_irrefl _ hlt1
      · rw [he1] at hlt2
        exact lt_irrefl _ hlt2
      · have : r.drawCount ≤ p.primary.drawCount := Nat.lt_succ_iff.mp hd2v
        exact absurd hd1 (Nat.not_lt.mpr this)
  · intro c x y1 y2 color alpha z
    exact ⟨rfl, rfl⟩

def c3WitPlot : Plot :=
  match runOp glPlotly (freshPlot glPlotly)
      (.fillBetween false [.num 0] [.num 0] [.num 1] "blue" 1 2) with
  | .ok p => p
  | .error _ => freshPlot glPlotly

/-- Witness for the amended C3: one `fillBetween` on a fresh
single-context interactive plot. -/
theorem c3_fillBetween_witness :
    ∃ t1 t2 : DeferredTrace,
      c3WitPlot.primary.deferredTraces =
        (freshPlot glPlotly).primary.deferredTraces ++ [t1, t2] ∧
      t1.drawCount = (freshPlot glPlotly).primary.drawCount ∧
      t2.drawCount = (freshPlot glPlotly).primary.drawCount + 1 ∧
      t1.zorder = 2 ∧ t2.zorder = 2 ∧
      dictGet t1.kwargs "line_color" = some (.s "rgba(0,0,0,0)") ∧
      dictGet t2.kwargs "fill" = some (.s "tonexty") ∧
      ∃ u v, drawFlushOrder c3WitPlot = u ++ t1 :: t2 :: v :=
  c3_fillBetween_amended.1 [] (freshPlot glPlotly) c3WitPlot
    [.num 0] [.num 0] [.num 1] "blue" 1 2 (by rfl) (by rfl) (by rfl) (by rfl)

end Mouse2AFC
